import Mathlib

/-!
Shallow embedding of the detection pipeline of `start.js` (second, authoritative
copy of the script, lines 1213-3084): input classification (`isIPAddress`,
`isDomain`), the `ip:port` splitter, recursive DNS resolution with CNAME
recursion (`resolveDomain`), the CDN-Trace probe (`testCDNTrace`), the per-IP
detection orchestrator (`detectSingleIP`), the batched detection loop, the
response cache and the sliding-window rate limiter (`checkRateLimit`), and the
`/api` request handler (`handleApi`).

External effects (DNS answers, probe outcomes, logging) are supplied by
explicit environment records; a promise rejection / thrown exception is
modelled as `Except.error` with the error message string, and mutable shared
maps (`requestCache`, `rateLimitMap`) as association lists threaded through
the handler.
-/

namespace CfProxy

/-! ## Configuration constants (start.js lines 1263-1282, second copy) -/

def CACHE_DURATION : Nat := 30000

def MAX_REQUESTS_PER_IP : Nat := 60

def RATE_LIMIT_WINDOW : Nat := 60000

def CDN_TRACE_TIMEOUT : Nat := 3000

def DNS_MAX_RECURSION_DEPTH : Nat := 10

def DEFAULT_PORT : Nat := 443

def DEFAULT_HOST : String := "clpan.pages.dev"

def DEFAULT_WS_PATH : String := "/"

/-! ## Input classification (start.js `isIPAddress` / `isDomain`, lines 2302-2323)

The JS regexes are embedded as character-list parsers:
`/^(?:[0-9]{1,3}\.){3}[0-9]{1,3}$/` splits the string on `.` into exactly four
runs of 1-3 digits; `/^(?:[0-9a-fA-F]{1,4}:){7}[0-9a-fA-F]{1,4}$|^::1$|^::$|^::/`
is eight hex groups separated by `:`, or any string starting with `::`
(the `^::` alternative is not right-anchored and subsumes `^::1$` and `^::$`);
`/^[a-zA-Z0-9][a-zA-Z0-9.-]*[a-zA-Z0-9]$|^[a-zA-Z0-9]$/` is an alphanumeric
first and last character with alphanumeric, dot or hyphen in between. -/

/-- Split a character list on a separator character (used for the `.`-separated
IPv4 groups and the `:`-separated IPv6 groups of the classification regexes). -/
def splitChar (sep : Char) : List Char → List (List Char)
  | [] => [[]]
  | c :: rest =>
    if c = sep then [] :: splitChar sep rest
    else
      match splitChar sep rest with
      | [] => [[c]]
      | p :: ps => (c :: p) :: ps

/-- Numeric value of a digit run, as computed by JS `parseInt(part, 10)` on an
all-digit string. -/
def charsToNat (cs : List Char) : Nat :=
  cs.foldl (fun n c => 10 * n + (c.toNat - '0'.toNat)) 0

/-- Test of the IPv4 shape regex `^(?:[0-9]{1,3}\.){3}[0-9]{1,3}$`. -/
def ipv4Shape (cs : List Char) : Bool :=
  let parts := splitChar '.' cs
  parts.length = 4 &&
    parts.all (fun p => 1 ≤ p.length && p.length ≤ 3 && p.all (·.isDigit))

/-- The per-group value check of `isIPAddress`: every dot-separated group,
read with `parseInt`, is between 0 and 255. -/
def ipv4Values (cs : List Char) : Bool :=
  (splitChar '.' cs).all (fun p => charsToNat p ≤ 255)

/-- An IPv4 literal as accepted by `isIPAddress`: shape regex plus value check. -/
def isIPv4l (cs : List Char) : Bool :=
  ipv4Shape cs && ipv4Values cs

/-- Hexadecimal digit `[0-9a-fA-F]` of the IPv6 regex. -/
def isHexChar (c : Char) : Bool :=
  c.isDigit || ('a' ≤ c && c ≤ 'f') || ('A' ≤ c && c ≤ 'F')

/-- Full-form IPv6 alternative `^(?:[0-9a-fA-F]{1,4}:){7}[0-9a-fA-F]{1,4}$`:
exactly eight colon-separated groups of 1-4 hex digits. -/
def ipv6Full (cs : List Char) : Bool :=
  let parts := splitChar ':' cs
  parts.length = 8 &&
    parts.all (fun p => 1 ≤ p.length && p.length ≤ 4 && p.all isHexChar)

/-- The unanchored `^::` alternative of the IPv6 regex: the string starts with
two colons. -/
def startsColonColon : List Char → Bool
  | ':' :: ':' :: _ => true
  | _ => false

/-- IPv6 test of `isIPAddress` (simplified regex of the source). -/
def isIPv6l (cs : List Char) : Bool :=
  ipv6Full cs || startsColonColon cs

/-- Model of `isIPAddress` (start.js lines 2302-2318): if the IPv4 shape regex
matches, the answer is the 0-255 value check; otherwise the IPv6 regex decides. -/
def isIPAddress (s : String) : Bool :=
  let cs := s.toList
  if ipv4Shape cs then ipv4Values cs else isIPv6l cs

/-- Character class `[a-zA-Z0-9]` of the domain regex. -/
def isAlnumChar (c : Char) : Bool := c.isAlphanum

/-- Character class `[a-zA-Z0-9.-]` of the domain regex. -/
def isDomainMidChar (c : Char) : Bool :=
  c.isAlphanum || c = '.' || c = '-'

/-- Tail of the domain regex after the first character: zero or more
`[a-zA-Z0-9.-]` followed by a final `[a-zA-Z0-9]`. -/
def domainTail : List Char → Bool
  | [] => false
  | [c] => isAlnumChar c
  | c :: rest => isDomainMidChar c && domainTail rest

/-- Model of `isDomain` (start.js lines 2320-2323):
`^[a-zA-Z0-9][a-zA-Z0-9.-]*[a-zA-Z0-9]$|^[a-zA-Z0-9]$`. -/
def isDomain (s : String) : Bool :=
  match s.toList with
  | [] => false
  | [c] => isAlnumChar c
  | c :: rest => isAlnumChar c && domainTail rest

/-! ## The `ip:port` splitter (start.js lines 2426-2431)

`ip.match(/^(.+?):(\d+)$/)` with a lazy first group: the shortest non-empty
prefix followed by a colon and a non-empty all-digit suffix reaching the end
of the string. Scanning left to right, the first colon whose entire suffix is
non-empty and all digits wins. -/

/-- Scanner for the `^(.+?):(\d+)$` match; `acc` is the reversed prefix read
so far (the candidate first capture group). -/
def splitIpPortAux (acc : List Char) : List Char → Option (String × String)
  | [] => none
  | c :: rest =>
    if c = ':' && acc ≠ [] && rest ≠ [] && rest.all (·.isDigit) then
      some (⟨acc.reverse⟩, ⟨rest⟩)
    else
      splitIpPortAux (c :: acc) rest

/-- Model of the `ip:port` detection: `some (ip, port)` when the regex
`^(.+?):(\d+)$` matches, `none` otherwise. -/
def splitIpPort (s : String) : Option (String × String) :=
  splitIpPortAux [] s.toList

/-! ## DNS resolution (start.js `resolveDomain`, lines 2326-2411)

The four DNS query methods are supplied by a `DnsEnv`; a rejected promise is
`none`, a fulfilled one `some` with its records. The mutable `visited` set
shared across recursive calls, and the queries actually issued, are threaded
through a `ResolveState`. The recursion is driven by a fuel counter kept in
lockstep with the depth counter (`fuel + depth = DNS_MAX_RECURSION_DEPTH + 2`
at every reachable call); a call at fuel 0 has depth 12 > 10, so the fuel-0
branch returns exactly the depth-limit error the depth check would raise. -/

/-- DNS collaborator interface: method 1 `dns.resolve4`, method 2
`dns.resolveCname`, method 3 `dns.resolve(domain, 'A')`, method 4
`dns.lookup {all: true, family: 4}` and its single-address fallback
`dns.lookup {family: 4}`. -/
structure DnsEnv where
  resolve4 : String → Option (List String)
  resolveCname : String → Option (List String)
  resolveA : String → Option (List String)
  lookupAll : String → Option (List String)
  lookupOne : String → Option String

/-- The `visited` set (as the list of domains in insertion order) plus the log
of DNS queries issued so far. -/
structure ResolveState where
  visited : List String
  queries : List String
  deriving DecidableEq, Repr

/-- Error message of the depth check (start.js line 2328). -/
def depthErrMsg : String :=
  "CNAME 递归深度超过限制（" ++ toString DNS_MAX_RECURSION_DEPTH ++ "层）"

/-- Error message of the cycle check (start.js line 2331). -/
def cycleErrMsg : String := "检测到 CNAME 循环引用"

/-- Error message thrown when all four methods find nothing (line 2404). -/
def noRecordsMsg (domain : String) : String :=
  "未找到 " ++ domain ++ " 的 A 记录或 CNAME 记录"

/-- Error message substituted by the outer catch for ENOTFOUND/ENODATA
(line 2407). -/
def notResolvableMsg (domain : String) : String :=
  "域名 " ++ domain ++ " 不存在或无法解析"

/-- Whether `pat` occurs at the start of a character list. -/
def leadsWith : List Char → List Char → Bool
  | [], _ => true
  | _ :: _, [] => false
  | p :: ps, c :: cs => p = c && leadsWith ps cs

/-- Whether `pat` occurs anywhere in a character list. -/
def occursIn (pat : List Char) : List Char → Bool
  | [] => leadsWith pat []
  | c :: rest => leadsWith pat (c :: rest) || occursIn pat rest

/-- JS `String.prototype.includes`. -/
def containsSub (s pat : String) : Bool :=
  occursIn pat.toList s.toList

/-- `allIPs.add` over a JS `Set` (insertion order, first occurrence kept),
applied to each element of `new`. -/
def addIPs (acc : List String) (new : List String) : List String :=
  new.foldl (fun a ip => if a.contains ip then a else a ++ [ip]) acc

/-- The `for (const cname of cnameRecords)` loop of method 2: each CNAME target
is resolved recursively through `recur` and its addresses added to the
accumulator; the first rejected recursive call aborts the loop (its exception
is caught by the `catch` wrapping the whole method, keeping the addresses and
state gathered so far). -/
def cnameLoop (recur : String → ResolveState → ResolveState × Except String (List String)) :
    List String → ResolveState → List String → ResolveState × List String
  | [], st, acc => (st, acc)
  | c :: rest, st, acc =>
    match recur c st with
    | (st2, Except.ok ips) => cnameLoop recur rest st2 (addIPs acc ips)
    | (st2, Except.error _) => (st2, acc)

/-- Fuel-indexed body of `resolveDomain` (start.js lines 2326-2411). -/
def resolveDomainFuel (env : DnsEnv) :
    Nat → String → ResolveState → Nat → ResolveState × Except String (List String)
  | 0, _domain, st, _depth => (st, Except.error depthErrMsg)
  | Nat.succ fuel, domain, st, depth =>
    if depth > DNS_MAX_RECURSION_DEPTH then
      (st, Except.error depthErrMsg)
    else if st.visited.contains domain then
      (st, Except.error cycleErrMsg)
    else
      let st := { st with visited := st.visited ++ [domain] }
      if isIPAddress domain then
        (st, Except.ok [domain])
      else
        -- method 1: A records
        let st := { st with queries := st.queries ++ ["resolve4 " ++ domain] }
        let ips1 := (env.resolve4 domain).getD []
        -- method 2: CNAME records, resolved recursively with the shared state
        let st := { st with queries := st.queries ++ ["resolveCname " ++ domain] }
        let (st, ips2) :=
          match env.resolveCname domain with
          | some cnames =>
            cnameLoop (fun c st2 => resolveDomainFuel env fuel c st2 (depth + 1))
              cnames st []
          | none => (st, [])
        -- method 3: generic resolve with record type A
        let st := { st with queries := st.queries ++ ["resolveA " ++ domain] }
        let ips3 := (env.resolveA domain).getD []
        -- method 4: lookup {all, family 4}, with single-address fallback
        let st := { st with queries := st.queries ++ ["lookupAll " ++ domain] }
        let (st, ips4) :=
          match env.lookupAll domain with
          | some addrs => (st, addrs)
          | none =>
            let st := { st with queries := st.queries ++ ["lookupOne " ++ domain] }
            match env.lookupOne domain with
            | some a => (st, [a])
            | none => (st, [])
        let allIPs := addIPs (addIPs (addIPs (addIPs [] ips1) ips2) ips3) ips4
        if allIPs.isEmpty then
          -- the `throw noRecordsMsg` lands in the outer catch, which replaces
          -- messages containing ENOTFOUND/ENODATA and rethrows the rest
          let msg := noRecordsMsg domain
          let msg :=
            if containsSub msg "ENOTFOUND" || containsSub msg "ENODATA" then
              notResolvableMsg domain
            else msg
          (st, Except.error msg)
        else
          (st, Except.ok allIPs)

/-- Model of `resolveDomain(domain, visited, depth)`: the fuel is the lockstep
complement of the depth. -/
def resolveDomainAt (env : DnsEnv) (domain : String) (visited : List String)
    (depth : Nat) : ResolveState × Except String (List String) :=
  resolveDomainFuel env (DNS_MAX_RECURSION_DEPTH + 2 - depth) domain
    { visited := visited, queries := [] } depth

/-- Model of the default call `resolveDomain(domain)` used by the `/api`
handler: fresh empty `visited` set, depth 0. -/
def resolveDomain (env : DnsEnv) (domain : String) :
    ResolveState × Except String (List String) :=
  resolveDomainAt env domain [] 0

/-! ## CDN-Trace probe (start.js `testCDNTrace`, lines 2958-3012)

The network interaction of one HTTPS GET to `/cdn-cgi/trace` is abstracted to
its observable outcome: a response with status code and accumulated body, an
`error` event with a message, or a `timeout` event. The promise only ever
resolves (`reject` is never called), so the model is a total function. -/

/-- Outcome of the underlying `https.request` of one CDN-Trace probe run. -/
inductive HttpOutcome where
  | response (statusCode : Nat) (body : String)
  | connError (msg : String)
  | timeout
  deriving DecidableEq, Repr

/-- Resolution value of `testCDNTrace`: `reason` is present exactly on the
failure paths. -/
structure CdnOutcome where
  success : Bool
  warp : String
  reason : Option String
  deriving DecidableEq, Repr

/-- JS character class `\w` = `[A-Za-z0-9_]`. -/
def isWordChar (c : Char) : Bool := c.isAlphanum || c = '_'

/-- First match of `/warp=(\w+)/`: scanning left to right, the first position
where `warp=` is followed by at least one word character yields the maximal
word-character run after the `=`. -/
def warpMatch : List Char → Option String
  | [] => none
  | c :: rest =>
    match c :: rest with
    | 'w' :: 'a' :: 'r' :: 'p' :: '=' :: after =>
      let run := after.takeWhile isWordChar
      if run.isEmpty then warpMatch rest else some ⟨run⟩
    | _ => warpMatch rest

/-- The character set stripped by JS `String.prototype.trim`: ECMA-262
WhiteSpace — TAB U+0009, VT U+000B, FF U+000C, SP U+0020, NBSP U+00A0,
ZWNBSP U+FEFF and the Unicode Space_Separator category (U+0020, U+00A0,
U+1680, U+2000-U+200A, U+202F, U+205F, U+3000) — plus LineTerminator —
LF U+000A, CR U+000D, LS U+2028, PS U+2029. -/
def jsWhitespaceChar (c : Char) : Bool :=
  c = '\t' || c = '\n' || c = '\x0B' || c = '\x0C' || c = '\r' || c = ' ' ||
    c.toNat = 0xA0 || c.toNat = 0x1680 ||
    (0x2000 ≤ c.toNat && c.toNat ≤ 0x200A) ||
    c.toNat = 0x2028 || c.toNat = 0x2029 || c.toNat = 0x202F || c.toNat = 0x205F ||
    c.toNat = 0x3000 || c.toNat = 0xFEFF

/-- JS `String.prototype.trim` (the `jsWhitespaceChar` set stripped from both
ends), used by the `!data?.trim()` emptiness test. -/
def jsTrim (s : String) : String :=
  ⟨(s.toList.dropWhile jsWhitespaceChar).reverse.dropWhile jsWhitespaceChar |>.reverse⟩

/-- Model of `testCDNTrace` (start.js lines 2958-3012) as a function of the
request outcome. -/
def testCDNTrace (o : HttpOutcome) : CdnOutcome :=
  match o with
  | HttpOutcome.response code body =>
    if code ≠ 200 ∨ jsTrim body = "" then
      { success := false
        warp := "off"
        reason := some (
          if code = 404 ∨ code = 403 then
            "端点不可用 (HTTP " ++ toString code ++ ")"
          else if code ≠ 200 then
            "HTTP " ++ toString code
          else
            "响应为空") }
    else
      let warp := (warpMatch body.toList).getD "off"
      { success := true
        warp := if warp = "on" then "on" else "off"
        reason := none }
  | HttpOutcome.connError msg =>
    { success := false
      warp := "off"
      reason := some (if msg = "" then "连接失败" else msg) }
  | HttpOutcome.timeout =>
    { success := false
      warp := "off"
      reason := some ("请求超时（" ++ toString (CDN_TRACE_TIMEOUT / 1000) ++ "秒）") }

/-! ## Per-IP detection (start.js `detectSingleIP`, lines 2528-2644)

The GeoIP lookup, the three probes and the debug logger are supplied by a
`DetectEnv`; each probe either fulfills (`Except.ok`) or rejects
(`Except.error message`). The body runs in an exception monad carrying the
partially-assembled result: the per-probe `try`/`catch` blocks convert probe
rejections into failure markers, and only exceptions raised outside them
(the `ENABLE_DETECTION_DEBUG`-gated `logger.debug` calls, which are external
calls not wrapped in any inner `try`) escape to the orchestrator boundary,
where the outer `catch` stores the message in `result.error` and returns the
partial result. `logger.warn`/`logger.error` calls are modelled as total.
Probe latencies (`Date.now()` differences) are supplied by the environment. -/

/-- GeoIP record assembled by `lookupGeoIP` (all fields independently
optional). -/
structure GeoInfo where
  city : Option String
  country : Option String
  countryName : Option String
  latitude : Option Int
  longitude : Option Int
  asn : Option Nat
  organization : Option String
  deriving DecidableEq, Repr

/-- Resolution value of `testWebSocket` on a completed upgrade. -/
structure WsInfo where
  connected : Bool
  protocol : Option String
  deriving DecidableEq, Repr

/-- Environment of one `/api` request's detection stage. -/
structure DetectEnv where
  debugEnabled : Bool
  disableWebSocket : Bool
  disableCdnTrace : Bool
  logDebug : String → Except String Unit
  geoip : String → Except String (Option GeoInfo)
  tlsProbe : String → Nat → String → Except String Unit
  wsProbe : String → Nat → String → String → Except String WsInfo
  cdnProbe : String → Nat → String → Except String CdnOutcome
  tlsElapsed : String → Nat
  wsElapsed : String → Nat

/-- The `checks` sub-object of a detection result. -/
structure Checks where
  tls_detect : Bool
  ws_real_connect : Bool
  cdn_trace : Bool
  deriving DecidableEq, Repr

/-- The `latency` sub-object of a detection result (fields set as the probes
complete). -/
structure Latency where
  tls_handshake_ms : Option Nat
  ws_connect_ms : Option Nat
  deriving DecidableEq, Repr

/-- The `cdn` sub-object of a detection result. -/
structure CdnField where
  warp : String
  deriving DecidableEq, Repr

/-- Per-IP result object assembled by `detectSingleIP`. -/
structure DetectionResult where
  ip : String
  checks : Checks
  latency : Latency
  geoip : Option GeoInfo
  cdn : CdnField
  websocket : Option WsInfo
  error : Option String
  deriving DecidableEq, Repr

/-- The fresh result object of start.js lines 2530-2540. -/
def initResult (ip : String) : DetectionResult :=
  { ip := ip
    checks := { tls_detect := false, ws_real_connect := false, cdn_trace := false }
    latency := { tls_handshake_ms := none, ws_connect_ms := none }
    geoip := none
    cdn := { warp := "off" }
    websocket := none
    error := none }

/-- The `ENABLE_DETECTION_DEBUG`-gated `logger.debug` call sites of
`detectSingleIP` that sit outside any inner `try`: a rejection there escapes
to the orchestrator boundary with the partial result assembled so far. -/
def logStep (env : DetectEnv) (msg : String) (r : DetectionResult) :
    Except (String × DetectionResult) DetectionResult :=
  if env.debugEnabled then
    match env.logDebug msg with
    | Except.error e => Except.error (e, r)
    | Except.ok _ => Except.ok r
  else Except.ok r

/-- GeoIP block (start.js lines 2549-2564): a lookup failure (and any failure
of the success-path debug log inside the same `try`) is absorbed by its
`catch`; an empty record is not stored. -/
def geoipStep (env : DetectEnv) (targetIP : String) (r : DetectionResult) : DetectionResult :=
  match env.geoip targetIP with
  | Except.ok (some g) => { r with geoip := some g }
  | Except.ok none => r
  | Except.error _ => r

/-- TLS block (start.js lines 2566-2581): the latency field is written on both
outcomes, the check flag only on fulfilment. -/
def tlsStep (env : DetectEnv) (targetIP : String) (targetPort : Nat) (host : String)
    (r : DetectionResult) : DetectionResult :=
  match env.tlsProbe targetIP targetPort host with
  | Except.ok _ =>
    { r with checks.tls_detect := true
             latency.tls_handshake_ms := some (env.tlsElapsed targetIP) }
  | Except.error _ =>
    { r with checks.tls_detect := false
             latency.tls_handshake_ms := some (env.tlsElapsed targetIP) }

/-- WebSocket block (start.js lines 2583-2609): the disabled branch records a
zero latency and logs outside any `try`; the probe branch stores the upgrade
info on fulfilment and a failure marker on rejection. -/
def wsStep (env : DetectEnv) (targetIP : String) (targetPort : Nat) (host : String)
    (wsPath : String) (r : DetectionResult) :
    Except (String × DetectionResult) DetectionResult :=
  if env.disableWebSocket then
    logStep env "WebSocket 已禁用"
      { r with checks.ws_real_connect := false, latency.ws_connect_ms := some 0 }
  else
    match env.wsProbe targetIP targetPort host wsPath with
    | Except.ok wsInfo =>
      Except.ok { r with checks.ws_real_connect := true
                         latency.ws_connect_ms := some (env.wsElapsed targetIP)
                         websocket := some wsInfo }
    | Except.error _ =>
      Except.ok { r with checks.ws_real_connect := false
                         latency.ws_connect_ms := some (env.wsElapsed targetIP) }

/-- CDN-Trace block (start.js lines 2611-2630): the disabled branch logs
outside any `try`; the probe branch copies `success` and overwrites `warp`
when truthy (non-empty). -/
def cdnStep (env : DetectEnv) (targetIP : String) (targetPort : Nat) (host : String)
    (r : DetectionResult) : Except (String × DetectionResult) DetectionResult :=
  if env.disableCdnTrace then
    logStep env "CDN Trace 已禁用" { r with checks.cdn_trace := false }
  else
    match env.cdnProbe targetIP targetPort host with
    | Except.ok cdnResult =>
      Except.ok { r with checks.cdn_trace := cdnResult.success
                         cdn.warp := if cdnResult.warp ≠ "" then cdnResult.warp
                                     else r.cdn.warp }
    | Except.error _ =>
      Except.ok { r with checks.cdn_trace := false }

/-- Body of `detectSingleIP` up to the outer `catch`: `Except.error (e, r)` is
an exception `e` escaping the per-probe handlers with the partial result `r`
assembled so far. -/
def detectSingleIPBody (env : DetectEnv) (targetIP : String) (targetPort : Nat)
    (host : String) (wsPath : String) : Except (String × DetectionResult) DetectionResult :=
  (logStep env "开始检测 IP" (initResult targetIP)).bind (fun r0 =>
    let r1 := geoipStep env targetIP r0
    let r2 := tlsStep env targetIP targetPort host r1
    (wsStep env targetIP targetPort host wsPath r2).bind (fun r3 =>
      (cdnStep env targetIP targetPort host r3).bind (fun r4 =>
        logStep env "IP 检测完成" r4)))

/-- Model of `detectSingleIP`: the outer `catch` (start.js lines 2637-2643)
converts an escaped exception into the partial result with its `error` field
set. -/
def detectSingleIP (env : DetectEnv) (targetIP : String) (targetPort : Nat)
    (host : String) (wsPath : String) : DetectionResult :=
  match detectSingleIPBody env targetIP targetPort host wsPath with
  | Except.ok r => r
  | Except.error (e, r) => { r with error := some e }

/-! ## Batched detection (start.js lines 2646-2665)

`for (let i = 0; i < targetIPs.length; i += MAX_CONCURRENT)` slices the target
list into chunks of `MAX_CONCURRENT = 10`, awaits `Promise.all` over each
chunk, and concatenates the chunk results in order. The fuel of `toBatchesF`
is the list length (each iteration consumes at least one element). -/

def MAX_CONCURRENT : Nat := 10

/-- Fuel-indexed chunking of the batch loop: each step takes the next
`MAX_CONCURRENT` elements. -/
def toBatchesF {α : Type} : Nat → List α → List (List α)
  | _, [] => []
  | 0, l => [l]
  | Nat.succ fuel, x :: xs => (x :: xs.take (MAX_CONCURRENT - 1)) :: toBatchesF fuel (xs.drop (MAX_CONCURRENT - 1))

/-- The slices `targetIPs.slice(i, i + MAX_CONCURRENT)` visited by the loop. -/
def toBatches {α : Type} (l : List α) : List (List α) :=
  toBatchesF l.length l

/-- Model of the batch loop: one `detectSingleIP` invocation per IP, chunk by
chunk, results concatenated in order. -/
def detectAll (env : DetectEnv) (targetPort : Nat) (host : String) (wsPath : String)
    (targetIPs : List String) : List DetectionResult :=
  ((toBatches targetIPs).map
    (fun batch => batch.map (fun ip => detectSingleIP env ip targetPort host wsPath))).flatten

/-! ## Result cleaning and response assembly (start.js lines 2676-2745) -/

/-- GeoIP sub-object of a cleaned result (each field `|| null`). -/
structure CleanGeo where
  city : Option String
  country : Option String
  countryName : Option String
  latitude : Option Int
  longitude : Option Int
  asn : Option Nat
  organization : Option String
  deriving DecidableEq, Repr

/-- WebSocket sub-object of a cleaned result. -/
structure CleanWs where
  connected : Bool
  protocol : Option String
  deriving DecidableEq, Repr

/-- Element of `cleanedResults`. -/
structure CleanedResult where
  ip : String
  checks : Checks
  latency : Latency
  geoip : Option CleanGeo
  cdn : Option CdnField
  websocket : Option CleanWs
  deriving DecidableEq, Repr

/-- The `results.map(...)` cleaning step: keep `geoip` when present, always
keep `cdn` (with `warp || "off"`), and keep `websocket` only when connected. -/
def cleanResult (r : DetectionResult) : CleanedResult :=
  { ip := r.ip
    checks := r.checks
    latency := r.latency
    geoip := r.geoip.map (fun g =>
      { city := g.city, country := g.country, countryName := g.countryName
        latitude := g.latitude, longitude := g.longitude
        asn := g.asn, organization := g.organization })
    cdn := some { warp := if r.cdn.warp ≠ "" then r.cdn.warp else "off" }
    websocket := match r.websocket with
      | some w => if w.connected then some { connected := true, protocol := w.protocol } else none
      | none => none }

/-- Response payload written by `res.json` on the success path: the single-IP
shape spreads the one cleaned result at top level, the multi-IP shape nests
them under `results` with `resolvedIPs`; `host` is included only when it
differs from `DEFAULT_HOST`, and `timestamp` is the serialization instant. -/
inductive ApiPayload where
  | single (input : String) (isDomain : Bool) (port : Nat) (result : CleanedResult)
      (host : Option String) (timestamp : Nat)
  | multi (input : String) (isDomain : Bool) (resolvedIPs : List String) (port : Nat)
      (results : List CleanedResult) (host : Option String) (timestamp : Nat)
  deriving DecidableEq, Repr

/-- A response sent by the `/api` handler: an error JSON with its HTTP status,
`error` and `message` fields, or a 200 payload. -/
inductive ApiResponse where
  | err (status : Nat) (error : String) (message : String)
  | ok (payload : ApiPayload)
  deriving DecidableEq, Repr

/-! ## Cache and rate limiter (start.js lines 2197-2271, 2507-2525, 2747-2748) -/

/-- Entry of `requestCache`: the full response payload plus its write time. -/
structure CacheEntry where
  data : ApiPayload
  timestamp : Nat
  deriving DecidableEq, Repr

/-- Entry of `rateLimitMap`: window start and request count. -/
structure RateRecord where
  firstRequest : Nat
  count : Nat
  deriving DecidableEq, Repr

/-- Lookup in a JS `Map` modelled as an association list. -/
def mapGet {α : Type} (m : List (String × α)) (k : String) : Option α :=
  match m with
  | [] => none
  | (k2, v) :: rest => if k2 = k then some v else mapGet rest k

/-- `Map.set`: overwrite in place if the key exists, append otherwise. -/
def mapSet {α : Type} (m : List (String × α)) (k : String) (v : α) : List (String × α) :=
  match m with
  | [] => [(k, v)]
  | (k2, v2) :: rest => if k2 = k then (k, v) :: rest else (k2, v2) :: mapSet rest k v

/-- The two process-wide mutable maps shared across requests. -/
structure ServerState where
  requestCache : List (String × CacheEntry)
  rateLimitMap : List (String × RateRecord)
  deriving DecidableEq, Repr

/-- Model of `checkRateLimit(ip)` (start.js lines 2249-2271): returns the
verdict and the updated map. A missing or expired record opens a fresh window
with count 1; within the window the request is rejected once the count has
reached `MAX_REQUESTS_PER_IP`, and otherwise counted. -/
def checkRateLimit (m : List (String × RateRecord)) (ip : String) (now : Nat) :
    Bool × List (String × RateRecord) :=
  let key := "rate_" ++ ip
  match mapGet m key with
  | none => (true, mapSet m key { firstRequest := now, count := 1 })
  | some record =>
    if now - record.firstRequest > RATE_LIMIT_WINDOW then
      (true, mapSet m key { firstRequest := now, count := 1 })
    else if record.count ≥ MAX_REQUESTS_PER_IP then
      (false, m)
    else
      (true, mapSet m key { record with count := record.count + 1 })

/-- Iterated `checkRateLimit` for one client over a list of request times. -/
def runRate (m : List (String × RateRecord)) (ip : String) :
    List Nat → List Bool × List (String × RateRecord)
  | [] => ([], m)
  | t :: ts =>
    let (ok, m2) := checkRateLimit m ip t
    let (oks, m3) := runRate m2 ip ts
    (ok :: oks, m3)

/-! ## The `/api` handler (start.js lines 2414-2765)

The handler is split into `handleApi` (parameter normalization, input
validation, DNS resolution of domain inputs) and `handleTargets` (IP-count
gate, rate limit, port validation, cache lookup, detection, cache write),
mirroring the statement order of the source. The output records, besides the
response and the updated shared maps, the DNS queries issued and the IPs that
underwent probe detection during the request. -/

/-- Query parameters of one `/api` request plus the client identity computed
by `getClientIP`. -/
structure ApiRequest where
  ip : Option String
  port : Option String
  host : Option String
  wsPath : Option String
  clientIp : String
  deriving DecidableEq, Repr

/-- Observable effect of one `/api` request: response, updated shared state,
DNS queries issued, and IPs probed. -/
structure HandlerOutput where
  response : ApiResponse
  state : ServerState
  dnsQueries : List String
  detectedIPs : List String
  deriving DecidableEq, Repr

def MAX_IP_COUNT : Nat := 50

/-- JS `parseInt(port)` combined with the `isNaN` guard: leading whitespace
skipped, optional `+`, then leading digits. A `-` would parse to a negative
number, which the `1-65535` range check rejects exactly like `NaN`, so both
are collapsed to `none` here. -/
def parsePort (s : String) : Option Nat :=
  let cs := s.toList.dropWhile Char.isWhitespace
  let cs := match cs with
    | '+' :: rest => rest
    | _ => cs
  match cs with
  | '-' :: _ => none
  | _ =>
    let ds := cs.takeWhile Char.isDigit
    if ds.isEmpty then none else some (charsToNat ds)

/-- The cache key of start.js lines 2509-2516: prefix by classification, then
the (post-split) input, the parsed port and the effective host — `wsPath` is
not part of the key. -/
def cacheKeyOf (isDomainName : Bool) (ip : String) (targetPort : Nat) (host : String) : String :=
  (if isDomainName then "domain_" else "ip_") ++ ip ++ "_" ++ toString targetPort ++ "_" ++ host

/-- Response construction of start.js lines 2712-2745: the single-IP shape for
exactly one target (its `headD` default is unreachable because the detection
stage returns one result per target), the `results`-array shape otherwise;
`host` only when not the default. -/
def buildResponse (ip : String) (isDomainName : Bool) (targetIPs : List String)
    (targetPort : Nat) (cleaned : List CleanedResult) (host : String) (now : Nat) : ApiPayload :=
  let hostField := if host = DEFAULT_HOST then none else some host
  if targetIPs.length = 1 then
    ApiPayload.single ip isDomainName targetPort (cleaned.headD (cleanResult (initResult ""))) hostField now
  else
    ApiPayload.multi ip isDomainName targetIPs targetPort cleaned hostField now

/-- The cache read of start.js lines 2518-2525: a stored entry is served while
its age is strictly below `CACHE_DURATION`. -/
def cacheLookup (cache : List (String × CacheEntry)) (key : String) (now : Nat) :
    Option ApiPayload :=
  match mapGet cache key with
  | some cached =>
    if now - cached.timestamp < CACHE_DURATION then some cached.data else none
  | none => none

/-- Stages of the handler from the IP-count gate on (start.js lines
2481-2765): count gate, rate limit, port validation, cache lookup, batched
detection, cleaning, response assembly, cache write. -/
def handleTargets (det : DetectEnv) (st : ServerState) (now : Nat) (clientIp : String)
    (ip : String) (isDomainName : Bool) (targetIPs : List String) (dnsQueries : List String)
    (portStr : String) (host : String) (wsPath : String) : HandlerOutput :=
  if targetIPs.length > MAX_IP_COUNT then
    { response := ApiResponse.err 400 "IP 数量过多"
        ("检测 IP 数量不能超过 " ++ toString MAX_IP_COUNT ++ " 个，当前为 " ++
          toString targetIPs.length ++ " 个")
      state := st, dnsQueries := dnsQueries, detectedIPs := [] }
  else
    let gate := checkRateLimit st.rateLimitMap clientIp now
    let st2 : ServerState := { st with rateLimitMap := gate.2 }
    if !gate.1 then
      { response := ApiResponse.err 429 "请求过于频繁" "请稍后再试"
        state := st2, dnsQueries := dnsQueries, detectedIPs := [] }
    else
      match parsePort portStr with
      | none =>
        { response := ApiResponse.err 400 "无效的端口号" "端口号必须在 1-65535 之间"
          state := st2, dnsQueries := dnsQueries, detectedIPs := [] }
      | some targetPort =>
        if targetPort < 1 ∨ targetPort > 65535 then
          { response := ApiResponse.err 400 "无效的端口号" "端口号必须在 1-65535 之间"
            state := st2, dnsQueries := dnsQueries, detectedIPs := [] }
        else
          let cacheKey := cacheKeyOf isDomainName ip targetPort host
          match cacheLookup st2.requestCache cacheKey now with
          | some payload =>
            { response := ApiResponse.ok payload
              state := st2, dnsQueries := dnsQueries, detectedIPs := [] }
          | none =>
            let results := detectAll det targetPort host wsPath targetIPs
            let cleaned := results.map cleanResult
            let payload := buildResponse ip isDomainName targetIPs targetPort cleaned host now
            let cache2 := mapSet st2.requestCache cacheKey { data := payload, timestamp := now }
            { response := ApiResponse.ok payload
              state := { st2 with requestCache := cache2 }
              dnsQueries := dnsQueries
              detectedIPs := targetIPs }

/-- Model of the `/api` handler (start.js lines 2414-2765): missing-parameter
check, `ip:port` split, host and port defaulting, classification, DNS
resolution of domain inputs, then `handleTargets`. -/
def handleApi (dns : DnsEnv) (det : DetectEnv) (st : ServerState) (now : Nat)
    (req : ApiRequest) : HandlerOutput :=
  let missing : HandlerOutput :=
    { response := ApiResponse.err 400 "缺少必需参数" "需要提供 ip 参数"
      state := st, dnsQueries := [], detectedIPs := [] }
  match req.ip with
  | none => missing
  | some ip0 =>
    if ip0 = "" then missing
    else
      let split := splitIpPort ip0
      let ip1 := match split with
        | some pr => pr.1
        | none => ip0
      let port1 := match split with
        | some pr => pr.2
        | none => req.port.getD (toString DEFAULT_PORT)
      let host := match req.host with
        | none => DEFAULT_HOST
        | some h => if jsTrim h = "" then DEFAULT_HOST else h
      let wsPath := req.wsPath.getD DEFAULT_WS_PATH
      let port2 := if port1 = "" then toString DEFAULT_PORT else port1
      let isIP := isIPAddress ip1
      let isDomainName := isDomain ip1
      if !isIP && !isDomainName then
        { response := ApiResponse.err 400 "无效的 IP 地址或域名"
            "请提供有效的 IP 地址或域名（支持 IPv4、IPv6 或域名，也可使用 IP:端口 格式）"
          state := st, dnsQueries := [], detectedIPs := [] }
      else
        if isDomainName then
          let resolved := resolveDomain dns ip1
          match resolved.2 with
          | Except.error msg =>
            { response := ApiResponse.err 400 "DNS 解析失败" msg
              state := st, dnsQueries := resolved.1.queries, detectedIPs := [] }
          | Except.ok targetIPs =>
            if targetIPs.isEmpty then
              { response := ApiResponse.err 400 "DNS 解析失败" "域名解析未返回任何 IP 地址"
                state := st, dnsQueries := resolved.1.queries, detectedIPs := [] }
            else
              handleTargets det st now req.clientIp ip1 true targetIPs resolved.1.queries
                port2 host wsPath
        else
          handleTargets det st now req.clientIp ip1 false [ip1] [] port2 host wsPath

/-! ## Concrete environments, states and requests used by witnesses and
counterexamples, and decidability instances -/

instance exceptDecEq {ε α : Type} [DecidableEq ε] [DecidableEq α] : DecidableEq (Except ε α)
  | Except.ok a, Except.ok b =>
    if h : a = b then Decidable.isTrue (congrArg Except.ok h)
    else Decidable.isFalse (fun hc => h (Except.ok.inj hc))
  | Except.ok _, Except.error _ => Decidable.isFalse (fun hc => Except.noConfusion hc)
  | Except.error _, Except.ok _ => Decidable.isFalse (fun hc => Except.noConfusion hc)
  | Except.error a, Except.error b =>
    if h : a = b then Decidable.isTrue (congrArg Except.error h)
    else Decidable.isFalse (fun hc => h (Except.error.inj hc))

/-- DNS environment in which every query fails. -/
def dnsEnvNone : DnsEnv :=
  { resolve4 := fun _ => none
    resolveCname := fun _ => none
    resolveA := fun _ => none
    lookupAll := fun _ => none
    lookupOne := fun _ => none }

/-- DNS environment with the self-referential CNAME `a.test → a.test` and no
address records: its CNAME chain repeats a name immediately. -/
def dnsEnvCycle : DnsEnv :=
  { resolve4 := fun _ => none
    resolveCname := fun d => if d = "a.test" then some ["a.test"] else none
    resolveA := fun _ => none
    lookupAll := fun _ => none
    lookupOne := fun _ => none }

/-- DNS environment with the 11-link CNAME chain `d0 → d1 → … → d11` and no
address records anywhere. -/
def dnsEnvChain : DnsEnv :=
  { resolve4 := fun _ => none
    resolveCname := fun d =>
      (List.lookup d
        [("d0", "d1"), ("d1", "d2"), ("d2", "d3"), ("d3", "d4"), ("d4", "d5"),
         ("d5", "d6"), ("d6", "d7"), ("d7", "d8"), ("d8", "d9"), ("d9", "d10"),
         ("d10", "d11")]).map (fun t => [t])
    resolveA := fun _ => none
    lookupAll := fun _ => none
    lookupOne := fun _ => none }

/-- Detection environment used to instantiate witnesses: every probe fails. -/
def detEnvStub : DetectEnv :=
  { debugEnabled := false
    disableWebSocket := false
    disableCdnTrace := false
    logDebug := fun _ => Except.ok ()
    geoip := fun _ => Except.error "GeoIP 数据库未加载"
    tlsProbe := fun _ _ _ => Except.error "TLS 连接失败"
    wsProbe := fun _ _ _ _ => Except.error "WebSocket 连接失败"
    cdnProbe := fun _ _ _ => Except.ok (testCDNTrace HttpOutcome.timeout)
    tlsElapsed := fun _ => 5
    wsElapsed := fun _ => 7 }

/-- The IP recorded in a body outcome, fulfilled or escaped. -/
def carriedIp : Except (String × DetectionResult) DetectionResult → String
  | Except.ok r => r.ip
  | Except.error (_, r) => r.ip

/-- Detection environment whose debug logger throws. -/
def detEnvBoom : DetectEnv :=
  { detEnvStub with debugEnabled := true, logDebug := fun _ => Except.error "boom" }

/-- The empty shared state. -/
def stEmpty : ServerState := { requestCache := [], rateLimitMap := [] }

/-- DNS environment with one A record for `x.test`. -/
def dnsEnvA : DnsEnv :=
  { resolve4 := fun d => if d = "x.test" then some ["1.2.3.4"] else none
    resolveCname := fun _ => none
    resolveA := fun _ => none
    lookupAll := fun _ => none
    lookupOne := fun _ => none }

/-- Request for the domain `x.test` with default parameters. -/
def reqXtest : ApiRequest :=
  { ip := some "x.test", port := none, host := none, wsPath := none, clientIp := "c" }

/-- Request for the IP literal `9.9.9.9` with default parameters. -/
def req9 : ApiRequest :=
  { ip := some "9.9.9.9", port := none, host := none, wsPath := none, clientIp := "c" }

/-- Stale cache entry used by the C4 witness. -/
def entryStale : CacheEntry :=
  { data := ApiPayload.single "9.9.9.9" true 443 (cleanResult (initResult "9.9.9.9")) none 0
    timestamp := 0 }

/-- State in which the client `c` has exhausted its rate window at time 0. -/
def st429 : ServerState :=
  { requestCache := [], rateLimitMap := [("rate_c", { firstRequest := 0, count := 60 })] }

/-- State with a fresh cache entry for `9.9.9.9` under host `h`. -/
def stCached : ServerState :=
  { requestCache := [("ip_9.9.9.9_443_h", entryStale)], rateLimitMap := [] }

/-- Request for `9.9.9.9` with the non-default WebSocket path `/ws1`. -/
def req9ws : ApiRequest :=
  { ip := some "9.9.9.9", port := none, host := none, wsPath := some "/ws1", clientIp := "c" }

/-! ## Theorems -/

/-- Shared lemma: the base case of `resolveDomain` on an IP literal. -/
theorem resolveDomain_ip_literal (env : DnsEnv) (ip : String)
    (h : isIPAddress ip = true) :
    resolveDomain env ip = ({ visited := [ip], queries := [] }, Except.ok [ip]) := by
  show resolveDomainFuel env 12 ip { visited := [], queries := [] } 0 = _
  rw [show (12 : Nat) = Nat.succ 11 from rfl]
  simp [resolveDomainFuel, h]

/-- C9: for every input string that is an IP literal, `resolveDomain` with the
default visited set and depth 0 returns exactly the singleton list containing
that address and performs no DNS query (and the visited set records just that
one entry). -/
theorem claimC9_ip_literal_resolution (env : DnsEnv) (ip : String)
    (h : isIPAddress ip = true) :
    resolveDomain env ip = ({ visited := [ip], queries := [] }, Except.ok [ip]) :=
  resolveDomain_ip_literal env ip h

/-- Witness for C9 at the IP literal `1.2.3.4`. -/
theorem claimC9_witness :
    isIPAddress "1.2.3.4" = true ∧
      resolveDomain dnsEnvNone "1.2.3.4" =
        ({ visited := ["1.2.3.4"], queries := [] }, Except.ok ["1.2.3.4"]) :=
  ⟨by decide, claimC9_ip_literal_resolution dnsEnvNone "1.2.3.4" (by decide)⟩

/-- Counterexample to C2: the domain `a.test` has a CNAME chain with a
repeated name (`a.test` is encountered twice within the resolution call), yet
the top-level `resolveDomain` does not fail with the cycle error — the inner
cycle error is swallowed by the catch around the CNAME method, and the call
fails with the no-records error instead. -/
theorem claimC2_counterexample :
    dnsEnvCycle.resolveCname "a.test" = some ["a.test"] ∧
      (resolveDomain dnsEnvCycle "a.test").2 = Except.error (noRecordsMsg "a.test") ∧
      (resolveDomain dnsEnvCycle "a.test").2 ≠ Except.error cycleErrMsg := by
  refine ⟨rfl, rfl, ?_⟩
  intro hc
  rw [show (resolveDomain dnsEnvCycle "a.test").2 = Except.error (noRecordsMsg "a.test")
    from rfl] at hc
  exact absurd (Except.error.inj hc) (by decide)

/-- C2 (amended): entering `resolveDomain` with the domain already in the
visited set of the current resolution call — the situation produced by a
repeated name in a CNAME chain — fails with the cycle error whenever the
depth is still within the limit (the cycle check fires before the depth limit
is exceeded); but a rejected recursive call inside the CNAME loop is caught
there, the loop stopping with the addresses and state gathered so far, so the
cycle error never propagates out of the enclosing call. -/
theorem claimC2_amended :
    (∀ (env : DnsEnv) (d : String) (visited : List String) (depth : Nat),
        visited.contains d = true → depth ≤ DNS_MAX_RECURSION_DEPTH →
        resolveDomainAt env d visited depth =
          ({ visited := visited, queries := [] }, Except.error cycleErrMsg)) ∧
    (∀ (recur : String → ResolveState → ResolveState × Except String (List String))
        (c : String) (rest : List String) (st st2 : ResolveState) (acc : List String)
        (e : String), recur c st = (st2, Except.error e) →
        cnameLoop recur (c :: rest) st acc = (st2, acc)) := by
  constructor
  · intro env d visited depth hmem hdepth
    unfold resolveDomainAt
    rw [show DNS_MAX_RECURSION_DEPTH + 2 - depth =
      Nat.succ (DNS_MAX_RECURSION_DEPTH + 1 - depth) from by
        unfold DNS_MAX_RECURSION_DEPTH at *; omega]
    have hgt : ¬ depth > DNS_MAX_RECURSION_DEPTH := by omega
    simp only [resolveDomainFuel]
    rw [if_neg hgt, if_pos hmem]
  · intro recur c rest st st2 acc e h
    simp [cnameLoop, h]

/-- Witness for C2 (amended) at depth 3 with `a.test` already visited, and at
a concrete failing recursive call. -/
theorem claimC2_witness :
    (resolveDomainAt dnsEnvNone "a.test" ["b.test", "a.test"] 3 =
      ({ visited := ["b.test", "a.test"], queries := [] }, Except.error cycleErrMsg)) ∧
    (cnameLoop (fun _ st => (st, Except.error "boom")) ["c.test", "d.test"]
      { visited := [], queries := [] } ["9.9.9.9"] =
      ({ visited := [], queries := [] }, ["9.9.9.9"])) :=
  ⟨claimC2_amended.1 dnsEnvNone "a.test" ["b.test", "a.test"] 3 (by decide) (by decide),
   claimC2_amended.2 (fun _ st => (st, Except.error "boom")) "c.test" ["d.test"]
     { visited := [], queries := [] } { visited := [], queries := [] } ["9.9.9.9"] "boom" rfl⟩

/-- Counterexample to C3: the CNAME chain of `d0` has 11 links (more than 10),
yet the top-level `resolveDomain` does not fail with the depth-exceeded error —
the depth error raised at depth 11 is swallowed by the catch around the CNAME
method of the enclosing call, and the top-level call fails with the no-records
error instead. -/
theorem claimC3_counterexample :
    dnsEnvChain.resolveCname "d0" = some ["d1"] ∧
      dnsEnvChain.resolveCname "d10" = some ["d11"] ∧
      (resolveDomain dnsEnvChain "d0").2 = Except.error (noRecordsMsg "d0") ∧
      (resolveDomain dnsEnvChain "d0").2 ≠ Except.error depthErrMsg := by
  refine ⟨rfl, rfl, rfl, ?_⟩
  intro hc
  rw [show (resolveDomain dnsEnvChain "d0").2 = Except.error (noRecordsMsg "d0")
    from rfl] at hc
  exact absurd (Except.error.inj hc) (by decide)

/-- C3 (amended): entering `resolveDomain` at a depth beyond
`DNS_MAX_RECURSION_DEPTH` — as happens for the 12th name of a chain longer
than 10 links — immediately fails with the depth-exceeded error, leaving the
visited set unchanged and issuing no query; the top-level call does not
propagate that error (the CNAME loop of the enclosing call catches it, see the
C3 counterexample). -/
theorem claimC3_amended (env : DnsEnv) (d : String) (visited : List String)
    (depth : Nat) (h : depth > DNS_MAX_RECURSION_DEPTH) :
    resolveDomainAt env d visited depth =
      ({ visited := visited, queries := [] }, Except.error depthErrMsg) := by
  unfold resolveDomainAt
  rcases hf : DNS_MAX_RECURSION_DEPTH + 2 - depth with _ | fuel
  · simp [resolveDomainFuel]
  · simp only [resolveDomainFuel]
    rw [if_pos h]

/-- Witness for C3 (amended) at depth 11. -/
theorem claimC3_witness :
    resolveDomainAt dnsEnvNone "d11" ["d0"] 11 =
      ({ visited := ["d0"], queries := [] }, Except.error depthErrMsg) :=
  claimC3_amended dnsEnvNone "d11" ["d0"] 11 (by decide)

/-- Counterexample to C6: a 200 response whose body `" "` is non-empty (but
blank) resolves with `success: false`, contradicting the claim that a 200
response with a non-empty body resolves with `success: true` — the code tests
`!data?.trim()`, emptiness after trimming. -/
theorem claimC6_counterexample :
    (" " : String) ≠ "" ∧
      testCDNTrace (HttpOutcome.response 200 " ") =
        { success := false, warp := "off", reason := some "响应为空" } := by
  decide

/-- C6 (amended): `testCDNTrace` never rejects (it is a total function of the
request outcome); its `warp` field is always exactly `"on"` or `"off"`; a
non-200 status or a blank body (empty after trimming whitespace), a connection
error, and a timeout each resolve to `success: false`, `warp: "off"` and a
populated `reason`; a 200 response whose body is non-blank resolves with
`success: true` and no `reason`. -/
theorem claimC6_amended :
    (∀ o, (testCDNTrace o).warp = "on" ∨ (testCDNTrace o).warp = "off") ∧
    (∀ code body, (code ≠ 200 ∨ jsTrim body = "") →
      (testCDNTrace (HttpOutcome.response code body)).success = false ∧
        (testCDNTrace (HttpOutcome.response code body)).warp = "off" ∧
        (testCDNTrace (HttpOutcome.response code body)).reason.isSome = true) ∧
    (∀ msg, testCDNTrace (HttpOutcome.connError msg) =
      { success := false, warp := "off"
        reason := some (if msg = "" then "连接失败" else msg) }) ∧
    (testCDNTrace HttpOutcome.timeout =
      { success := false, warp := "off", reason := some "请求超时（3秒）" }) ∧
    (∀ body, jsTrim body ≠ "" →
      (testCDNTrace (HttpOutcome.response 200 body)).success = true ∧
        (testCDNTrace (HttpOutcome.response 200 body)).reason = none) := by
  refine ⟨?_, ?_, ?_, ?_, ?_⟩
  · intro o
    rcases o with ⟨code, body⟩ | msg | _
    · by_cases h : code ≠ 200 ∨ jsTrim body = ""
      · simp [testCDNTrace, if_pos h]
      · simp only [testCDNTrace, if_neg h]
        by_cases hw : (warpMatch body.data).getD "off" = "on"
        · left; simp [hw]
        · right; simp [hw]
    · right; simp [testCDNTrace]
    · right; simp [testCDNTrace]
  · intro code body h
    simp [testCDNTrace, if_pos h]
  · intro msg; rfl
  · rfl
  · intro body h
    simp [testCDNTrace, h]

/-- Witness for C6 (amended): a 503 response, a 200 response whose body is a
lone vertical tab (blank under the JS trim set), a connection error, and a
successful trace body. -/
theorem claimC6_witness :
    ((testCDNTrace (HttpOutcome.response 503 "x")).success = false ∧
      (testCDNTrace (HttpOutcome.response 503 "x")).warp = "off" ∧
      (testCDNTrace (HttpOutcome.response 503 "x")).reason.isSome = true) ∧
    ((testCDNTrace (HttpOutcome.response 200 "\x0B")).success = false ∧
      (testCDNTrace (HttpOutcome.response 200 "\x0B")).warp = "off" ∧
      (testCDNTrace (HttpOutcome.response 200 "\x0B")).reason.isSome = true) ∧
    (testCDNTrace (HttpOutcome.connError "ECONNRESET") =
      { success := false, warp := "off", reason := some "ECONNRESET" }) ∧
    ((testCDNTrace (HttpOutcome.response 200 "warp=on")).success = true ∧
      (testCDNTrace (HttpOutcome.response 200 "warp=on")).reason = none) :=
  ⟨claimC6_amended.2.1 503 "x" (Or.inl (by decide)),
   claimC6_amended.2.1 200 "\x0B" (Or.inr (by decide)),
   by rw [claimC6_amended.2.2.1 "ECONNRESET"]; rfl,
   claimC6_amended.2.2.2.2 "warp=on" (by decide)⟩

/-! ## Rate limiter theorems (C5) -/

/-- Shared lemma: iterating the rate limiter from a window opened at `t1` with
count `k` over further in-window requests allows exactly the next
`MAX_REQUESTS_PER_IP - k` of them and rejects the following one, leaving the
counter saturated. -/
theorem runRate_window (ip : String) (t1 : Nat) :
    ∀ (rest : List Nat) (k : Nat), 1 ≤ k → k ≤ MAX_REQUESTS_PER_IP →
      k + rest.length = MAX_REQUESTS_PER_IP + 1 →
      (∀ t ∈ rest, t - t1 ≤ RATE_LIMIT_WINDOW) →
      runRate [("rate_" ++ ip, { firstRequest := t1, count := k })] ip rest =
        (List.replicate (MAX_REQUESTS_PER_IP - k) true ++ [false],
         [("rate_" ++ ip, { firstRequest := t1, count := MAX_REQUESTS_PER_IP })]) := by
  intro rest
  induction rest with
  | nil =>
    intro k h1 hk hlen _
    exfalso
    have hM : MAX_REQUESTS_PER_IP = 60 := rfl
    rw [hM] at hk hlen
    simp at hlen
    omega
  | cons t ts ih =>
    intro k h1 hk hlen hin
    have hM : MAX_REQUESTS_PER_IP = 60 := rfl
    have hW : RATE_LIMIT_WINDOW = 60000 := rfl
    have ht : t - t1 ≤ RATE_LIMIT_WINDOW := hin t (by simp)
    have hnw : ¬ t - t1 > RATE_LIMIT_WINDOW := by rw [hW] at ht ⊢; omega
    have hlen2 : k + ts.length + 1 = MAX_REQUESTS_PER_IP + 1 := by
      rw [← hlen]; simp [Nat.add_assoc]
    rcases Nat.lt_or_ge k MAX_REQUESTS_PER_IP with hlt | hge
    · have hstep : checkRateLimit [("rate_" ++ ip, { firstRequest := t1, count := k })] ip t =
          (true, [("rate_" ++ ip, { firstRequest := t1, count := k + 1 })]) := by
        simp [checkRateLimit, mapGet, mapSet, hnw, Nat.not_le.mpr hlt]
      have hrep : MAX_REQUESTS_PER_IP - k = (MAX_REQUESTS_PER_IP - (k + 1)) + 1 := by
        rw [hM] at hlt ⊢; omega
      simp only [runRate, hstep]
      rw [ih (k + 1) (by omega) (by rw [hM] at hlt ⊢; omega)
        (by rw [hM] at hlen2 ⊢; omega) (fun u hu => hin u (by simp [hu]))]
      rw [hrep, List.replicate_succ]
      simp
    · have hkeq : k = MAX_REQUESTS_PER_IP := Nat.le_antisymm hk hge
      subst hkeq
      have hts : ts = [] := by
        refine List.eq_nil_of_length_eq_zero ?_
        rw [hM] at hlen2; omega
      subst hts
      have hstep : checkRateLimit [("rate_" ++ ip, { firstRequest := t1, count := MAX_REQUESTS_PER_IP })] ip t =
          (false, [("rate_" ++ ip, { firstRequest := t1, count := MAX_REQUESTS_PER_IP })]) := by
        simp [checkRateLimit, mapGet, hnw]
      simp [runRate, hstep]

/-- Shared lemma: a request whose post-split input is an IP literal and whose
rate gate fails is answered with the 429 error, no probes run, and (the
literal resolving without queries) no DNS queries issued. -/
theorem handleApi_rate_limited (dns : DnsEnv) (det : DetectEnv) (st : ServerState)
    (now : Nat) (req : ApiRequest) (ip0 : String) (hip : req.ip = some ip0)
    (hne : ip0 ≠ "") (hsplit : splitIpPort ip0 = none)
    (hlit : isIPAddress ip0 = true)
    (hgate : (checkRateLimit st.rateLimitMap req.clientIp now).1 = false) :
    handleApi dns det st now req =
      { response := ApiResponse.err 429 "请求过于频繁" "请稍后再试"
        state := { st with rateLimitMap := (checkRateLimit st.rateLimitMap req.clientIp now).2 }
        dnsQueries := []
        detectedIPs := [] } := by
  by_cases hdom : isDomain ip0 = true
  · simp [handleApi, hip, hne, hsplit, hlit, hdom,
      resolveDomain_ip_literal dns ip0 hlit, handleTargets, MAX_IP_COUNT, hgate]
  · have hdom2 : isDomain ip0 = false := by
      cases hd : isDomain ip0
      · rfl
      · exact absurd hd hdom
    simp [handleApi, hip, hne, hsplit, hlit, hdom2, handleTargets, MAX_IP_COUNT, hgate]

/-- C5: starting from an empty window, the first request of a client opens a
60-second window with count 1 and is allowed; each in-window request is
allowed exactly while the count is below `MAX_REQUESTS_PER_IP` (incrementing
it), so of 1 + `MAX_REQUESTS_PER_IP` requests inside one window the first
`MAX_REQUESTS_PER_IP` are allowed and the last is rejected; a rate-limited
request is answered 429 by the handler; and the first request after the window
has elapsed is allowed again and resets the window. -/
theorem claimC5_rate_limiter (ip : String) (t1 t2 : Nat) (rest : List Nat)
    (hlen : rest.length = MAX_REQUESTS_PER_IP)
    (hin : ∀ t ∈ rest, t - t1 ≤ RATE_LIMIT_WINDOW)
    (helapsed : t2 - t1 > RATE_LIMIT_WINDOW) :
    runRate [] ip (t1 :: rest) =
      (true :: (List.replicate (MAX_REQUESTS_PER_IP - 1) true ++ [false]),
       [("rate_" ++ ip, { firstRequest := t1, count := MAX_REQUESTS_PER_IP })]) ∧
    checkRateLimit [("rate_" ++ ip, { firstRequest := t1, count := MAX_REQUESTS_PER_IP })] ip t2 =
      (true, [("rate_" ++ ip, { firstRequest := t2, count := 1 })]) ∧
    (∀ (dns : DnsEnv) (det : DetectEnv) (st : ServerState) (now : Nat)
        (req : ApiRequest) (ip0 : String), req.ip = some ip0 → ip0 ≠ "" →
        splitIpPort ip0 = none → isIPAddress ip0 = true →
        (checkRateLimit st.rateLimitMap req.clientIp now).1 = false →
        (handleApi dns det st now req).response = ApiResponse.err 429 "请求过于频繁" "请稍后再试") := by
  refine ⟨?_, ?_, ?_⟩
  · have hfirst : checkRateLimit [] ip t1 =
        (true, [("rate_" ++ ip, { firstRequest := t1, count := 1 })]) := by
      simp [checkRateLimit, mapGet, mapSet]
    simp only [runRate, hfirst]
    rw [runRate_window ip t1 rest 1 (by omega) (by simp [MAX_REQUESTS_PER_IP])
      (by omega) hin]
  · simp [checkRateLimit, mapGet, mapSet, helapsed]
  · intro dns det st now req ip0 hip hne hsplit hlit hgate
    rw [handleApi_rate_limited dns det st now req ip0 hip hne hsplit hlit hgate]

/-- Witness for C5: client `c`, sixty further requests at the window-opening
instant, a still-rate-limited request at 100ms, and a reset request at 70s. -/
theorem claimC5_witness :
    (runRate [] "c" (0 :: List.replicate 60 0) =
      (true :: (List.replicate 59 true ++ [false]),
       [("rate_c", { firstRequest := 0, count := 60 })])) ∧
    (checkRateLimit [("rate_c", { firstRequest := 0, count := 60 })] "c" 70000 =
      (true, [("rate_c", { firstRequest := 70000, count := 1 })])) ∧
    (handleApi dnsEnvNone detEnvStub
        { requestCache := [], rateLimitMap := [("rate_c", { firstRequest := 0, count := 60 })] }
        100
        { ip := some "1.2.3.4", port := none, host := none, wsPath := none, clientIp := "c" }).response =
      ApiResponse.err 429 "请求过于频繁" "请稍后再试" := by
  have h := claimC5_rate_limiter "c" 0 70000 (List.replicate 60 0)
    (by decide) (by decide) (by decide)
  exact ⟨h.1, h.2.1,
    h.2.2 dnsEnvNone detEnvStub
      { requestCache := [], rateLimitMap := [("rate_c", { firstRequest := 0, count := 60 })] }
      100
      { ip := some "1.2.3.4", port := none, host := none, wsPath := none, clientIp := "c" }
      "1.2.3.4" rfl (by decide) (by decide) (by decide) (by decide)⟩

/-! ## Batch detection theorems (C1) -/

/-- Shared lemma: flattening the mapped batches with sufficient fuel is the
plain map over the whole list. -/
theorem toBatchesF_flatten_map {α β : Type} (f : α → β) :
    ∀ (fuel : Nat) (l : List α), l.length ≤ fuel →
      ((toBatchesF fuel l).map (List.map f)).flatten = l.map f := by
  intro fuel
  induction fuel with
  | zero =>
    intro l hl
    have : l = [] := List.eq_nil_of_length_eq_zero (Nat.le_zero.mp hl)
    subst this
    rfl
  | succ fuel ih =>
    intro l hl
    cases l with
    | nil => rfl
    | cons x xs =>
      simp only [toBatchesF, List.map_cons, List.flatten_cons]
      rw [ih (xs.drop (MAX_CONCURRENT - 1)) (by simp at hl ⊢; omega)]
      simp [List.map_take, List.map_drop, List.take_append_drop]

/-- Shared lemma: the batched detection loop is extensionally the map of
`detectSingleIP` over the target list. -/
theorem detectAll_eq_map (env : DetectEnv) (targetPort : Nat) (host : String)
    (wsPath : String) (targetIPs : List String) :
    detectAll env targetPort host wsPath targetIPs =
      targetIPs.map (fun ip => detectSingleIP env ip targetPort host wsPath) :=
  toBatchesF_flatten_map _ targetIPs.length targetIPs (Nat.le_refl _)

theorem carriedIp_logStep (env : DetectEnv) (msg : String) (r : DetectionResult) :
    carriedIp (logStep env msg r) = r.ip := by
  unfold logStep
  split
  · split <;> rfl
  · rfl

theorem geoipStep_ip (env : DetectEnv) (targetIP : String) (r : DetectionResult) :
    (geoipStep env targetIP r).ip = r.ip := by
  unfold geoipStep
  split <;> rfl

theorem tlsStep_ip (env : DetectEnv) (targetIP : String) (targetPort : Nat)
    (host : String) (r : DetectionResult) :
    (tlsStep env targetIP targetPort host r).ip = r.ip := by
  unfold tlsStep
  split <;> rfl

theorem carriedIp_wsStep (env : DetectEnv) (targetIP : String) (targetPort : Nat)
    (host wsPath : String) (r : DetectionResult) :
    carriedIp (wsStep env targetIP targetPort host wsPath r) = r.ip := by
  unfold wsStep
  split
  · rw [carriedIp_logStep]
  · split <;> rfl

theorem carriedIp_cdnStep (env : DetectEnv) (targetIP : String) (targetPort : Nat)
    (host : String) (r : DetectionResult) :
    carriedIp (cdnStep env targetIP targetPort host r) = r.ip := by
  unfold cdnStep
  split
  · rw [carriedIp_logStep]
  · split <;> rfl

/-- Shared lemma: every result object assembled by the body carries the IP it
was created for. -/
theorem detectSingleIPBody_ip (env : DetectEnv) (ip : String) (p : Nat)
    (h w : String) : carriedIp (detectSingleIPBody env ip p h w) = ip := by
  unfold detectSingleIPBody
  have h0 := carriedIp_logStep env "开始检测 IP" (initResult ip)
  cases hl : logStep env "开始检测 IP" (initResult ip) with
  | error er =>
    rw [hl] at h0
    simpa [Except.bind, carriedIp, initResult] using h0
  | ok r0 =>
    rw [hl] at h0
    simp only [carriedIp, initResult] at h0
    simp only [Except.bind]
    have h2 : (tlsStep env ip p h (geoipStep env ip r0)).ip = ip := by
      rw [tlsStep_ip, geoipStep_ip, h0]
    have h3 := carriedIp_wsStep env ip p h w (tlsStep env ip p h (geoipStep env ip r0))
    cases hw : wsStep env ip p h w (tlsStep env ip p h (geoipStep env ip r0)) with
    | error er =>
      rw [hw] at h3
      rw [h2] at h3
      simpa [carriedIp] using h3
    | ok r3 =>
      rw [hw] at h3
      simp only [carriedIp] at h3
      rw [h2] at h3
      simp only [Except.bind]
      have h4 := carriedIp_cdnStep env ip p h r3
      cases hc : cdnStep env ip p h r3 with
      | error er =>
        rw [hc] at h4
        rw [h3] at h4
        simpa [carriedIp] using h4
      | ok r4 =>
        rw [hc] at h4
        simp only [carriedIp] at h4
        rw [h3] at h4
        simp only [Except.bind]
        have h5 := carriedIp_logStep env "IP 检测完成" r4
        rw [h4] at h5
        exact h5

/-- Shared lemma: the `ip` field of a finished detection result. -/
theorem detectSingleIP_ip (env : DetectEnv) (ip : String) (p : Nat) (h w : String) :
    (detectSingleIP env ip p h w).ip = ip := by
  have hb := detectSingleIPBody_ip env ip p h w
  unfold detectSingleIP
  revert hb
  rcases detectSingleIPBody env ip p h w with r | ⟨e, r⟩
  · intro hb; exact hb
  · intro hb; exact hb

/-- C1: the detection stage yields exactly one `DetectionResult` per input IP:
the output length equals the input length and the result at index `i` is
`detectSingleIP` of the IP at index `i` (so one IP's outcome never affects a
sibling's); every result carries the IP it was produced for, even when all
probes fail; and an exception escaping the per-probe handlers is caught at the
orchestrator boundary and converted into that IP's result with its `error`
field set, the IP still recorded. -/
theorem claimC1_one_result_per_ip :
    (∀ (env : DetectEnv) (p : Nat) (h w : String) (ips : List String),
      (detectAll env p h w ips).length = ips.length) ∧
    (∀ (env : DetectEnv) (p : Nat) (h w : String) (ips : List String) (i : Nat),
      (detectAll env p h w ips)[i]? =
        (ips[i]?).map (fun ip => detectSingleIP env ip p h w)) ∧
    (∀ (env : DetectEnv) (ip : String) (p : Nat) (h w : String),
      (detectSingleIP env ip p h w).ip = ip) ∧
    (∀ (env : DetectEnv) (ip : String) (p : Nat) (h w : String) (e : String)
        (r : DetectionResult),
      detectSingleIPBody env ip p h w = Except.error (e, r) →
      detectSingleIP env ip p h w = { r with error := some e } ∧ r.ip = ip) := by
  refine ⟨?_, ?_, ?_, ?_⟩
  · intro env p h w ips
    rw [detectAll_eq_map]
    exact List.length_map ips _
  · intro env p h w ips i
    rw [detectAll_eq_map]
    exact List.getElem?_map _ ips i
  · intro env ip p h w
    exact detectSingleIP_ip env ip p h w
  · intro env ip p h w e r hbody
    constructor
    · unfold detectSingleIP
      rw [hbody]
    · have hb := detectSingleIPBody_ip env ip p h w
      rw [hbody] at hb
      exact hb

/-- Witness for C1: a two-IP batch, and an environment whose escaped exception
is converted into the result's `error` field. -/
theorem claimC1_witness :
    (detectAll detEnvStub 443 "h.test" "/" ["1.1.1.1", "2.2.2.2"]).length =
      (["1.1.1.1", "2.2.2.2"] : List String).length ∧
    (detectSingleIP detEnvBoom "1.1.1.1" 443 "h.test" "/" =
      { initResult "1.1.1.1" with error := some "boom" } ∧
      (initResult "1.1.1.1").ip = "1.1.1.1") :=
  ⟨claimC1_one_result_per_ip.1 detEnvStub 443 "h.test" "/" ["1.1.1.1", "2.2.2.2"],
   claimC1_one_result_per_ip.2.2.2 detEnvBoom "1.1.1.1" 443 "h.test" "/" "boom"
     (initResult "1.1.1.1") rfl⟩

/-! ## Classification theorems (C8) -/

theorem splitChar_ne_nil (sep : Char) : ∀ cs, splitChar sep cs ≠ [] := by
  intro cs
  induction cs with
  | nil => simp [splitChar]
  | cons c rest ih =>
    simp only [splitChar]
    split
    · simp
    · split <;> simp

theorem splitChar_mem (sep : Char) :
    ∀ cs c, c ∈ cs → c = sep ∨ ∃ p ∈ splitChar sep cs, c ∈ p := by
  intro cs
  induction cs with
  | nil => intro c hc; cases hc
  | cons a rest ih =>
    intro c hc
    rcases List.mem_cons.mp hc with rfl | hmem
    · by_cases ha : c = sep
      · exact Or.inl ha
      · cases hsp : splitChar sep rest with
        | nil => exact absurd hsp (splitChar_ne_nil sep rest)
        | cons p ps =>
          refine Or.inr ⟨c :: p, ?_, by simp⟩
          simp [splitChar, ha, hsp]
    · rcases ih c hmem with hs | ⟨p, hp, hcp⟩
      · exact Or.inl hs
      · by_cases ha : a = sep
        · refine Or.inr ⟨p, ?_, hcp⟩
          simp [splitChar, ha, hp]
        · cases hsp : splitChar sep rest with
          | nil => exact absurd hsp (splitChar_ne_nil sep rest)
          | cons q qs =>
            rw [hsp] at hp
            rcases List.mem_cons.mp hp with rfl | hpq
            · refine Or.inr ⟨a :: p, ?_, List.mem_cons_of_mem a hcp⟩
              simp [splitChar, ha, hsp]
            · refine Or.inr ⟨p, ?_, hcp⟩
              simp [splitChar, ha, hsp, hpq]

theorem splitChar_no_sep (sep : Char) :
    ∀ cs, sep ∉ cs → splitChar sep cs = [cs] := by
  intro cs
  induction cs with
  | nil => intro _; rfl
  | cons a rest ih =>
    intro hnmem
    have ha : ¬ a = sep := fun hc => hnmem (hc ▸ List.mem_cons_self a rest)
    have hr : sep ∉ rest := fun hc => hnmem (List.mem_cons_of_mem a hc)
    simp [splitChar, ha, ih hr]

theorem ipv4Shape_chars (cs : List Char) (h : ipv4Shape cs = true) :
    ∀ c ∈ cs, c.isDigit = true ∨ c = '.' := by
  intro c hc
  unfold ipv4Shape at h
  rw [Bool.and_eq_true] at h
  rcases splitChar_mem '.' cs c hc with hdot | ⟨p, hp, hcp⟩
  · exact Or.inr hdot
  · left
    have hall := h.2
    rw [List.all_eq_true] at hall
    have hpchk := hall p hp
    rw [Bool.and_eq_true, Bool.and_eq_true] at hpchk
    have := hpchk.2
    rw [List.all_eq_true] at this
    exact this c hcp

theorem isIPv6l_colon_mem (cs : List Char) (h : isIPv6l cs = true) : ':' ∈ cs := by
  unfold isIPv6l at h
  rw [Bool.or_eq_true] at h
  rcases h with h6 | hcc
  · unfold ipv6Full at h6
    rw [Bool.and_eq_true] at h6
    by_contra hni
    rw [splitChar_no_sep ':' cs hni] at h6
    simp at h6
  · unfold startsColonColon at hcc
    split at hcc
    · simp
    · cases hcc

theorem isAlnumChar_mid (c : Char) (h : isAlnumChar c = true) :
    isDomainMidChar c = true := by
  unfold isAlnumChar at h
  simp [isDomainMidChar, h]

theorem domainTail_chars : ∀ l, domainTail l = true →
    ∀ c ∈ l, isDomainMidChar c = true := by
  intro l
  induction l with
  | nil => intro h; cases h
  | cons a rest ih =>
    intro h c hc
    cases rest with
    | nil =>
      simp only [domainTail] at h
      rcases List.mem_singleton.mp hc with rfl
      exact isAlnumChar_mid c h
    | cons b rest2 =>
      simp only [domainTail] at h
      rw [Bool.and_eq_true] at h
      rcases List.mem_cons.mp hc with rfl | hmem
      · exact h.1
      · exact ih h.2 c hmem

theorem isDomain_chars (s : String) (h : isDomain s = true) :
    ∀ c ∈ s.toList, isDomainMidChar c = true := by
  intro c hc
  unfold isDomain at h
  rcases hl : s.toList with _ | ⟨a, rest⟩
  · rw [hl] at hc; cases hc
  · rw [hl] at h hc
    cases rest with
    | nil =>
      rcases List.mem_singleton.mp hc with rfl
      exact isAlnumChar_mid c h
    | cons b rest2 =>
      rw [Bool.and_eq_true] at h
      rcases List.mem_cons.mp hc with rfl | hmem
      · exact isAlnumChar_mid c h.1
      · exact domainTail_chars (b :: rest2) h.2 c hmem

/-- Shared lemma: a string passing the IPv4 shape test never passes the IPv6
test (its characters are digits and dots, but IPv6 requires a colon). -/
theorem ipv4Shape_not_ipv6 (cs : List Char) (h4 : ipv4Shape cs = true) :
    isIPv6l cs = false := by
  cases h6 : isIPv6l cs
  · rfl
  · exfalso
    have hcolon := isIPv6l_colon_mem cs h6
    rcases ipv4Shape_chars cs h4 ':' hcolon with hd | hd <;> simp at hd

/-- Counterexample to C8: the input `1.2.3.4` satisfies both the IPv4 and the
domain classification at once, and is accepted for processing (the request
runs detection on it rather than being rejected with the 400
input-validation error). -/
theorem claimC8_counterexample :
    isIPv4l "1.2.3.4".toList = true ∧ isDomain "1.2.3.4" = true ∧
      (handleApi dnsEnvNone detEnvStub { requestCache := [], rateLimitMap := [] } 0
        { ip := some "1.2.3.4", port := none, host := none, wsPath := none,
          clientIp := "c" }).detectedIPs = ["1.2.3.4"] ∧
      (handleApi dnsEnvNone detEnvStub { requestCache := [], rateLimitMap := [] } 0
        { ip := some "1.2.3.4", port := none, host := none, wsPath := none,
          clientIp := "c" }).response ≠
        ApiResponse.err 400 "无效的 IP 地址或域名"
          "请提供有效的 IP 地址或域名（支持 IPv4、IPv6 或域名，也可使用 IP:端口 格式）" := by
  refine ⟨by decide, by decide, by decide, by decide⟩

/-- C8 (amended): every input string is classified by `isIPAddress` (IPv4 with
value check, else IPv6) or `isDomain`, and a request whose post-split input
satisfies neither is rejected with the 400 input-validation error before any
DNS query or probe; the IPv6 classification excludes both the IPv4 and the
domain classification, but IPv4 and domain are not mutually exclusive (see the
counterexample `1.2.3.4`), and inputs satisfying both are accepted. -/
theorem claimC8_amended :
    (∀ s : String, isIPv4l s.toList = false ∨ isIPv6l s.toList = false) ∧
    (∀ s : String, isIPv6l s.toList = false ∨ isDomain s = false) ∧
    (∀ s : String, isIPAddress s = (isIPv4l s.toList || isIPv6l s.toList)) ∧
    (∀ (dns : DnsEnv) (det : DetectEnv) (st : ServerState) (now : Nat)
        (req : ApiRequest) (ip0 : String), req.ip = some ip0 → ip0 ≠ "" →
        splitIpPort ip0 = none → isIPAddress ip0 = false → isDomain ip0 = false →
        handleApi dns det st now req =
          { response := ApiResponse.err 400 "无效的 IP 地址或域名"
              "请提供有效的 IP 地址或域名（支持 IPv4、IPv6 或域名，也可使用 IP:端口 格式）"
            state := st, dnsQueries := [], detectedIPs := [] }) := by
  refine ⟨?_, ?_, ?_, ?_⟩
  · intro s
    cases h4 : isIPv4l s.toList
    · exact Or.inl rfl
    · right
      unfold isIPv4l at h4
      rw [Bool.and_eq_true] at h4
      exact ipv4Shape_not_ipv6 s.toList h4.1
  · intro s
    cases h6 : isIPv6l s.toList
    · exact Or.inl rfl
    · right
      cases hd : isDomain s
      · rfl
      · exfalso
        have hcolon := isIPv6l_colon_mem s.toList h6
        have := isDomain_chars s hd ':' hcolon
        simp [isDomainMidChar] at this
  · intro s
    show isIPAddress s = (isIPv4l s.data || isIPv6l s.data)
    unfold isIPAddress isIPv4l
    cases h4 : ipv4Shape s.data
    · simp [String.toList, h4]
    · simp [String.toList, h4, ipv4Shape_not_ipv6 s.data h4]
  · intro dns det st now req ip0 hip hne hsplit hipaddr hdom
    simp [handleApi, hip, hne, hsplit, hipaddr, hdom]

/-- Witness for C8 (amended): the malformed input `a_b` is rejected with the
400 input-validation error; `::1` is IPv6 and neither IPv4 nor a domain. -/
theorem claimC8_witness :
    (handleApi dnsEnvNone detEnvStub { requestCache := [], rateLimitMap := [] } 0
      { ip := some "a_b", port := none, host := none, wsPath := none, clientIp := "c" } =
      { response := ApiResponse.err 400 "无效的 IP 地址或域名"
          "请提供有效的 IP 地址或域名（支持 IPv4、IPv6 或域名，也可使用 IP:端口 格式）"
        state := { requestCache := [], rateLimitMap := [] }
        dnsQueries := [], detectedIPs := [] }) ∧
    (isIPv4l "x.y".toList = false ∨ isIPv6l "x.y".toList = false) :=
  ⟨claimC8_amended.2.2.2 dnsEnvNone detEnvStub { requestCache := [], rateLimitMap := [] } 0
      { ip := some "a_b", port := none, host := none, wsPath := none, clientIp := "c" }
      "a_b" rfl (by decide) (by decide) (by decide) (by decide),
   claimC8_amended.1 "x.y"⟩

/-! ## Cache and control-flow theorems (C4, C7, C10) -/

theorem mapGet_mapSet_self {α : Type} (m : List (String × α)) (k : String) (v : α) :
    mapGet (mapSet m k v) k = some v := by
  induction m with
  | nil => simp [mapGet, mapSet]
  | cons hd tl ih =>
    obtain ⟨k2, v2⟩ := hd
    by_cases hk : k2 = k
    · simp [mapGet, mapSet, hk]
    · simp [mapGet, mapSet, hk, ih]

/-- Shared lemma: `handleApi` on a post-split IP-literal input with default
port and host reduces to `handleTargets` over the singleton target, with no
DNS queries recorded. -/
theorem handleApi_ip_literal (dns : DnsEnv) (det : DetectEnv) (st : ServerState)
    (now : Nat) (req : ApiRequest) (ip0 : String) (hip : req.ip = some ip0)
    (hne : ip0 ≠ "") (hsplit : splitIpPort ip0 = none)
    (hlit : isIPAddress ip0 = true) (hport : req.port = none) (hhost : req.host = none) :
    handleApi dns det st now req =
      handleTargets det st now req.clientIp ip0 (isDomain ip0) [ip0] [] "443"
        DEFAULT_HOST (req.wsPath.getD DEFAULT_WS_PATH) := by
  have hts : toString DEFAULT_PORT = "443" := rfl
  by_cases hdom : isDomain ip0 = true
  · simp [handleApi, hip, hne, hsplit, hlit, hdom, hport, hhost, hts,
      resolveDomain_ip_literal dns ip0 hlit]
  · have hdom2 : isDomain ip0 = false := by
      cases hd : isDomain ip0
      · rfl
      · exact absurd hd hdom
    simp [handleApi, hip, hne, hsplit, hlit, hdom2, hport, hhost, hts]

/-- Shared lemma: a valid in-window cache entry short-circuits `handleTargets`
to the stored payload with no detection. -/
theorem handleTargets_cache_hit (det : DetectEnv) (st : ServerState) (now : Nat)
    (client ip : String) (isDom : Bool) (tips : List String) (queries : List String)
    (portStr host wsPath : String) (p : Nat) (payload : ApiPayload)
    (hlen : ¬ tips.length > MAX_IP_COUNT)
    (hgate : (checkRateLimit st.rateLimitMap client now).1 = true)
    (hport : parsePort portStr = some p) (hrange : ¬ (p < 1 ∨ p > 65535))
    (hhit : cacheLookup st.requestCache (cacheKeyOf isDom ip p host) now = some payload) :
    handleTargets det st now client ip isDom tips queries portStr host wsPath =
      { response := ApiResponse.ok payload
        state := { st with rateLimitMap := (checkRateLimit st.rateLimitMap client now).2 }
        dnsQueries := queries, detectedIPs := [] } := by
  simp [handleTargets, hlen, hgate, hport, hhit]
  exact ⟨by omega, by omega⟩

/-- Shared lemma: a cache miss runs the batched detection, assembles the
response, and writes it back under the same key. -/
theorem handleTargets_cache_miss (det : DetectEnv) (st : ServerState) (now : Nat)
    (client ip : String) (isDom : Bool) (tips : List String) (queries : List String)
    (portStr host wsPath : String) (p : Nat)
    (hlen : ¬ tips.length > MAX_IP_COUNT)
    (hgate : (checkRateLimit st.rateLimitMap client now).1 = true)
    (hport : parsePort portStr = some p) (hrange : ¬ (p < 1 ∨ p > 65535))
    (hmiss : cacheLookup st.requestCache (cacheKeyOf isDom ip p host) now = none) :
    handleTargets det st now client ip isDom tips queries portStr host wsPath =
      { response := ApiResponse.ok (buildResponse ip isDom tips p
          ((detectAll det p host wsPath tips).map cleanResult) host now)
        state := { requestCache := mapSet st.requestCache (cacheKeyOf isDom ip p host)
                     { data := buildResponse ip isDom tips p
                         ((detectAll det p host wsPath tips).map cleanResult) host now
                       timestamp := now }
                   rateLimitMap := (checkRateLimit st.rateLimitMap client now).2 }
        dnsQueries := queries, detectedIPs := tips } := by
  simp [handleTargets, hlen, hgate, hport, hmiss]
  exact ⟨by omega, by omega⟩

/-- Shared lemma: every `handleTargets` branch reports exactly the DNS queries
it was handed. -/
theorem handleTargets_dnsQueries (det : DetectEnv) (st : ServerState) (now : Nat)
    (client ip : String) (isDom : Bool) (tips : List String) (queries : List String)
    (portStr host wsPath : String) :
    (handleTargets det st now client ip isDom tips queries portStr host wsPath).dnsQueries =
      queries := by
  simp only [handleTargets]
  repeat' split
  all_goals rfl

/-- Shared lemma: a failed rate gate stops `handleTargets` before any
detection. -/
theorem handleTargets_rateFail_detected (det : DetectEnv) (st : ServerState) (now : Nat)
    (client ip : String) (isDom : Bool) (tips : List String) (queries : List String)
    (portStr host wsPath : String)
    (hg : (checkRateLimit st.rateLimitMap client now).1 = false) :
    (handleTargets det st now client ip isDom tips queries portStr host wsPath).detectedIPs =
      [] := by
  unfold handleTargets
  split
  · rfl
  · simp [hg]

/-- Shared lemma: a rate-limited request never reaches the detection stage,
whatever its input. -/
theorem handleApi_rateFail_detected (dns : DnsEnv) (det : DetectEnv) (st : ServerState)
    (now : Nat) (req : ApiRequest)
    (hg : (checkRateLimit st.rateLimitMap req.clientIp now).1 = false) :
    (handleApi dns det st now req).detectedIPs = [] := by
  simp only [handleApi]
  repeat' split
  all_goals
    first
      | rfl
      | exact handleTargets_rateFail_detected _ _ _ _ _ _ _ _ _ _ _ hg

/-- Counterexample to C4: two identical requests for the domain `x.test`,
10 seconds apart. The second is served from the cache and runs no probes, but
it does trigger network activity — the handler resolves the domain again
(five DNS queries) before the cache is even consulted, refuting "no second
network activity (no resolution)". -/
theorem claimC4_counterexample :
    (handleApi dnsEnvA detEnvStub stEmpty 0 reqXtest).detectedIPs = ["1.2.3.4"] ∧
    (handleApi dnsEnvA detEnvStub (handleApi dnsEnvA detEnvStub stEmpty 0 reqXtest).state
        10000 reqXtest).response = (handleApi dnsEnvA detEnvStub stEmpty 0 reqXtest).response ∧
    (handleApi dnsEnvA detEnvStub (handleApi dnsEnvA detEnvStub stEmpty 0 reqXtest).state
        10000 reqXtest).detectedIPs = [] ∧
    (handleApi dnsEnvA detEnvStub (handleApi dnsEnvA detEnvStub stEmpty 0 reqXtest).state
        10000 reqXtest).dnsQueries =
      ["resolve4 x.test", "resolveCname x.test", "resolveA x.test",
       "lookupAll x.test", "lookupOne x.test"] := by
  refine ⟨by decide, by decide, by decide, by decide⟩

/-- C4 (amended): for identical (input, port, host) requests the cache behaves
as claimed except for domain resolution, which precedes the cache lookup and
so happens on every request. (1) For an IP-literal input whose first run
misses the cache, a second identical request within 30 seconds is answered
with the byte-identical cached payload, runs no probes, and issues no DNS
queries. (2) An entry aged `CACHE_DURATION` or more is a miss. (3) On a miss
the handler runs a fresh batched detection and writes the response under the
same key. -/
theorem claimC4_amended :
    (∀ (dns : DnsEnv) (det : DetectEnv) (st : ServerState) (req : ApiRequest)
        (ip0 : String) (now1 now2 : Nat),
      req.ip = some ip0 → ip0 ≠ "" → splitIpPort ip0 = none → isIPAddress ip0 = true →
      req.port = none → req.host = none →
      (checkRateLimit st.rateLimitMap req.clientIp now1).1 = true →
      cacheLookup st.requestCache (cacheKeyOf (isDomain ip0) ip0 443 DEFAULT_HOST) now1 = none →
      now2 - now1 < CACHE_DURATION →
      (checkRateLimit (handleApi dns det st now1 req).state.rateLimitMap req.clientIp now2).1 = true →
      (handleApi dns det st now1 req).detectedIPs = [ip0] ∧
      (handleApi dns det (handleApi dns det st now1 req).state now2 req).response =
        (handleApi dns det st now1 req).response ∧
      (handleApi dns det (handleApi dns det st now1 req).state now2 req).detectedIPs = [] ∧
      (handleApi dns det (handleApi dns det st now1 req).state now2 req).dnsQueries = []) ∧
    (∀ (cache : List (String × CacheEntry)) (key : String) (now : Nat) (entry : CacheEntry),
      mapGet cache key = some entry → now - entry.timestamp ≥ CACHE_DURATION →
      cacheLookup cache key now = none) ∧
    (∀ (det : DetectEnv) (st : ServerState) (now : Nat) (client ip : String)
        (isDom : Bool) (tips queries : List String) (portStr host wsPath : String) (p : Nat),
      ¬ tips.length > MAX_IP_COUNT →
      (checkRateLimit st.rateLimitMap client now).1 = true →
      parsePort portStr = some p → ¬ (p < 1 ∨ p > 65535) →
      cacheLookup st.requestCache (cacheKeyOf isDom ip p host) now = none →
      handleTargets det st now client ip isDom tips queries portStr host wsPath =
        { response := ApiResponse.ok (buildResponse ip isDom tips p
            ((detectAll det p host wsPath tips).map cleanResult) host now)
          state := { requestCache := mapSet st.requestCache (cacheKeyOf isDom ip p host)
                       { data := buildResponse ip isDom tips p
                           ((detectAll det p host wsPath tips).map cleanResult) host now
                         timestamp := now }
                     rateLimitMap := (checkRateLimit st.rateLimitMap client now).2 }
          dnsQueries := queries, detectedIPs := tips }) := by
  refine ⟨?_, ?_, ?_⟩
  · intro dns det st req ip0 now1 now2 hip hne hsplit hlit hprt hhst hg1 hmiss httl hg2
    have hlen : ¬ ([ip0] : List String).length > MAX_IP_COUNT := by simp [MAX_IP_COUNT]
    have hparse : parsePort "443" = some 443 := by decide
    have hrange : ¬ ((443 : Nat) < 1 ∨ (443 : Nat) > 65535) := by omega
    have hout1 : handleApi dns det st now1 req =
        { response := ApiResponse.ok (buildResponse ip0 (isDomain ip0) [ip0] 443
            ((detectAll det 443 DEFAULT_HOST (req.wsPath.getD DEFAULT_WS_PATH) [ip0]).map cleanResult)
            DEFAULT_HOST now1)
          state := { requestCache := mapSet st.requestCache
                       (cacheKeyOf (isDomain ip0) ip0 443 DEFAULT_HOST)
                       { data := buildResponse ip0 (isDomain ip0) [ip0] 443
                           ((detectAll det 443 DEFAULT_HOST (req.wsPath.getD DEFAULT_WS_PATH) [ip0]).map cleanResult)
                           DEFAULT_HOST now1
                         timestamp := now1 }
                     rateLimitMap := (checkRateLimit st.rateLimitMap req.clientIp now1).2 }
          dnsQueries := [], detectedIPs := [ip0] } :=
      (handleApi_ip_literal dns det st now1 req ip0 hip hne hsplit hlit hprt hhst).trans
        (handleTargets_cache_miss det st now1 req.clientIp ip0 (isDomain ip0) [ip0] []
          "443" DEFAULT_HOST (req.wsPath.getD DEFAULT_WS_PATH) 443 hlen hg1 hparse hrange hmiss)
    rw [hout1] at hg2
    simp only at hg2
    have hhit : cacheLookup
        (mapSet st.requestCache (cacheKeyOf (isDomain ip0) ip0 443 DEFAULT_HOST)
          { data := buildResponse ip0 (isDomain ip0) [ip0] 443
              ((detectAll det 443 DEFAULT_HOST (req.wsPath.getD DEFAULT_WS_PATH) [ip0]).map cleanResult)
              DEFAULT_HOST now1
            timestamp := now1 })
        (cacheKeyOf (isDomain ip0) ip0 443 DEFAULT_HOST) now2 =
        some (buildResponse ip0 (isDomain ip0) [ip0] 443
          ((detectAll det 443 DEFAULT_HOST (req.wsPath.getD DEFAULT_WS_PATH) [ip0]).map cleanResult)
          DEFAULT_HOST now1) := by
      simp [cacheLookup, mapGet_mapSet_self, httl]
    have hout2 := (handleApi_ip_literal dns det
        { requestCache := mapSet st.requestCache (cacheKeyOf (isDomain ip0) ip0 443 DEFAULT_HOST)
            { data := buildResponse ip0 (isDomain ip0) [ip0] 443
                ((detectAll det 443 DEFAULT_HOST (req.wsPath.getD DEFAULT_WS_PATH) [ip0]).map cleanResult)
                DEFAULT_HOST now1
              timestamp := now1 }
          rateLimitMap := (checkRateLimit st.rateLimitMap req.clientIp now1).2 }
        now2 req ip0 hip hne hsplit hlit hprt hhst).trans
      (handleTargets_cache_hit det _ now2 req.clientIp ip0 (isDomain ip0) [ip0] []
        "443" DEFAULT_HOST (req.wsPath.getD DEFAULT_WS_PATH) 443 _ hlen hg2 hparse hrange hhit)
    refine ⟨by rw [hout1], ?_, ?_, ?_⟩
    · simp only [hout1]
      rw [hout2]
    · simp only [hout1]
      rw [hout2]
    · simp only [hout1]
      rw [hout2]
  · intro cache key now entry hget hge
    have hnot : ¬ (now - entry.timestamp < CACHE_DURATION) := by
      have hC : CACHE_DURATION = 30000 := rfl
      rw [hC] at hge ⊢
      omega
    simp [cacheLookup, hget, hnot]
  · intro det st now client ip isDom tips queries portStr host wsPath p
      hlen hgate hport hrange hmiss
    exact handleTargets_cache_miss det st now client ip isDom tips queries portStr
      host wsPath p hlen hgate hport hrange hmiss

/-- Witness for C4 (amended): the IP literal `9.9.9.9`, first request at 0ms,
second at 10s; a stale entry at 30s; and a concrete miss. -/
theorem claimC4_witness :
    ((handleApi dnsEnvNone detEnvStub stEmpty 0 req9).detectedIPs = ["9.9.9.9"] ∧
     (handleApi dnsEnvNone detEnvStub (handleApi dnsEnvNone detEnvStub stEmpty 0 req9).state
        10000 req9).response = (handleApi dnsEnvNone detEnvStub stEmpty 0 req9).response ∧
     (handleApi dnsEnvNone detEnvStub (handleApi dnsEnvNone detEnvStub stEmpty 0 req9).state
        10000 req9).detectedIPs = [] ∧
     (handleApi dnsEnvNone detEnvStub (handleApi dnsEnvNone detEnvStub stEmpty 0 req9).state
        10000 req9).dnsQueries = []) ∧
    cacheLookup [("k", entryStale)] "k" 30000 = none :=
  ⟨claimC4_amended.1 dnsEnvNone detEnvStub stEmpty req9 "9.9.9.9" 0 10000 rfl
      (by decide) (by decide) (by decide) rfl rfl (by decide) (by decide) (by decide)
      (by decide),
   claimC4_amended.2.1 [("k", entryStale)] "k" 30000 entryStale (by decide) (by decide)⟩

/-- Shared lemma: a request whose post-split input is an IP literal issues no
DNS queries, whatever else happens. -/
theorem handleApi_ip_literal_queries (dns : DnsEnv) (det : DetectEnv) (st : ServerState)
    (now : Nat) (req : ApiRequest) (ip0 : String) (hip : req.ip = some ip0)
    (hne : ip0 ≠ "") (hsplit : splitIpPort ip0 = none) (hlit : isIPAddress ip0 = true) :
    (handleApi dns det st now req).dnsQueries = [] := by
  by_cases hdom : isDomain ip0 = true
  · simp [handleApi, hip, hne, hsplit, hlit, hdom,
      resolveDomain_ip_literal dns ip0 hlit, handleTargets_dnsQueries]
  · have hdom2 : isDomain ip0 = false := by
      cases hd : isDomain ip0
      · rfl
      · exact absurd hd hdom
    simp [handleApi, hip, hne, hsplit, hlit, hdom2, handleTargets_dnsQueries]

/-- Counterexample to C7: a rate-limited request for the domain `x.test` is
rejected with 429 and runs no probes, but the handler has already performed
the full DNS resolution (five queries) before the rate-limit check — the
claimed order "rate-limit check, then cache check, then Resolver" does not
hold, and a rate-limited request does trigger Resolver activity. -/
theorem claimC7_counterexample :
    (handleApi dnsEnvA detEnvStub st429 100 reqXtest).response =
      ApiResponse.err 429 "请求过于频繁" "请稍后再试" ∧
    (handleApi dnsEnvA detEnvStub st429 100 reqXtest).dnsQueries =
      ["resolve4 x.test", "resolveCname x.test", "resolveA x.test",
       "lookupAll x.test", "lookupOne x.test"] ∧
    (handleApi dnsEnvA detEnvStub st429 100 reqXtest).detectedIPs = [] := by
  refine ⟨by decide, by decide, by decide⟩

/-- C7 (amended): the actual processing order is input validation, then (for
domains) the Resolver, then the IP-count gate, the rate limit, the port
check, the cache check, detection, cache write, response. Consequently: a
rate-limited request runs no probes (whatever its input); a cache hit is
answered from the stored payload without probes; and an IP-literal request
never triggers Resolver queries. Domain inputs, however, are resolved before
the rate-limit and cache checks (see the counterexample). -/
theorem claimC7_pipeline_order :
    (∀ (dns : DnsEnv) (det : DetectEnv) (st : ServerState) (now : Nat) (req : ApiRequest),
      (checkRateLimit st.rateLimitMap req.clientIp now).1 = false →
      (handleApi dns det st now req).detectedIPs = []) ∧
    (∀ (det : DetectEnv) (st : ServerState) (now : Nat) (client ip : String)
        (isDom : Bool) (tips queries : List String) (portStr host wsPath : String)
        (p : Nat) (payload : ApiPayload),
      ¬ tips.length > MAX_IP_COUNT →
      (checkRateLimit st.rateLimitMap client now).1 = true →
      parsePort portStr = some p → ¬ (p < 1 ∨ p > 65535) →
      cacheLookup st.requestCache (cacheKeyOf isDom ip p host) now = some payload →
      handleTargets det st now client ip isDom tips queries portStr host wsPath =
        { response := ApiResponse.ok payload
          state := { st with rateLimitMap := (checkRateLimit st.rateLimitMap client now).2 }
          dnsQueries := queries, detectedIPs := [] }) ∧
    (∀ (dns : DnsEnv) (det : DetectEnv) (st : ServerState) (now : Nat)
        (req : ApiRequest) (ip0 : String),
      req.ip = some ip0 → ip0 ≠ "" → splitIpPort ip0 = none → isIPAddress ip0 = true →
      (handleApi dns det st now req).dnsQueries = []) := by
  refine ⟨?_, ?_, ?_⟩
  · intro dns det st now req hg
    exact handleApi_rateFail_detected dns det st now req hg
  · intro det st now client ip isDom tips queries portStr host wsPath p payload
      hlen hgate hport hrange hhit
    exact handleTargets_cache_hit det st now client ip isDom tips queries portStr
      host wsPath p payload hlen hgate hport hrange hhit
  · intro dns det st now req ip0 hip hne hsplit hlit
    exact handleApi_ip_literal_queries dns det st now req ip0 hip hne hsplit hlit

/-- Witness for C7: a rate-limited request runs no probes; a concrete cache
hit is served without detection; an IP-literal request issues no DNS query. -/
theorem claimC7_witness :
    (handleApi dnsEnvNone detEnvStub st429 100 req9).detectedIPs = [] ∧
    handleTargets detEnvStub stCached 5 "c" "9.9.9.9" false ["9.9.9.9"] [] "443" "h" "/" =
      { response := ApiResponse.ok entryStale.data
        state := { stCached with
          rateLimitMap := (checkRateLimit stCached.rateLimitMap "c" 5).2 }
        dnsQueries := [], detectedIPs := [] } ∧
    (handleApi dnsEnvNone detEnvStub stEmpty 3 req9).dnsQueries = [] :=
  ⟨claimC7_pipeline_order.1 dnsEnvNone detEnvStub st429 100 req9 (by decide),
   claimC7_pipeline_order.2.1 detEnvStub stCached 5 "c" "9.9.9.9" false ["9.9.9.9"] []
     "443" "h" "/" 443 entryStale.data (by decide) (by decide) (by decide) (by omega)
     (by decide),
   claimC7_pipeline_order.2.2 dnsEnvNone detEnvStub stEmpty 3 req9 "9.9.9.9" rfl
     (by decide) (by decide) (by decide)⟩

/-- C10: the cache key is built from the classification, the post-split input,
the parsed port and the effective host — never from `wsPath`. For an
IP-literal request with default port and host whose first run misses the
cache, the first response embeds the detection performed with the first
request's `wsPath`; a second request within the TTL that differs only in
`wsPath` is served exactly that stored response, with no probes run for its
own `wsPath`. -/
theorem claimC10_cache_key_ignores_wsPath (dns : DnsEnv) (det : DetectEnv)
    (st : ServerState) (req : ApiRequest) (ip0 w2 : String) (now1 now2 : Nat)
    (hip : req.ip = some ip0) (hne : ip0 ≠ "") (hsplit : splitIpPort ip0 = none)
    (hlit : isIPAddress ip0 = true) (hprt : req.port = none) (hhst : req.host = none)
    (hg1 : (checkRateLimit st.rateLimitMap req.clientIp now1).1 = true)
    (hmiss : cacheLookup st.requestCache
      (cacheKeyOf (isDomain ip0) ip0 443 DEFAULT_HOST) now1 = none)
    (httl : now2 - now1 < CACHE_DURATION)
    (hg2 : (checkRateLimit (handleApi dns det st now1 req).state.rateLimitMap
      req.clientIp now2).1 = true) :
    (handleApi dns det st now1 req).response =
      ApiResponse.ok (buildResponse ip0 (isDomain ip0) [ip0] 443
        ((detectAll det 443 DEFAULT_HOST (req.wsPath.getD DEFAULT_WS_PATH) [ip0]).map cleanResult)
        DEFAULT_HOST now1) ∧
    (handleApi dns det (handleApi dns det st now1 req).state now2
        { req with wsPath := some w2 }).response = (handleApi dns det st now1 req).response ∧
    (handleApi dns det (handleApi dns det st now1 req).state now2
        { req with wsPath := some w2 }).detectedIPs = [] := by
  have hlen : ¬ ([ip0] : List String).length > MAX_IP_COUNT := by simp [MAX_IP_COUNT]
  have hparse : parsePort "443" = some 443 := by decide
  have hrange : ¬ ((443 : Nat) < 1 ∨ (443 : Nat) > 65535) := by omega
  have hout1 : handleApi dns det st now1 req =
      { response := ApiResponse.ok (buildResponse ip0 (isDomain ip0) [ip0] 443
          ((detectAll det 443 DEFAULT_HOST (req.wsPath.getD DEFAULT_WS_PATH) [ip0]).map cleanResult)
          DEFAULT_HOST now1)
        state := { requestCache := mapSet st.requestCache
                     (cacheKeyOf (isDomain ip0) ip0 443 DEFAULT_HOST)
                     { data := buildResponse ip0 (isDomain ip0) [ip0] 443
                         ((detectAll det 443 DEFAULT_HOST (req.wsPath.getD DEFAULT_WS_PATH) [ip0]).map cleanResult)
                         DEFAULT_HOST now1
                       timestamp := now1 }
                   rateLimitMap := (checkRateLimit st.rateLimitMap req.clientIp now1).2 }
        dnsQueries := [], detectedIPs := [ip0] } :=
    (handleApi_ip_literal dns det st now1 req ip0 hip hne hsplit hlit hprt hhst).trans
      (handleTargets_cache_miss det st now1 req.clientIp ip0 (isDomain ip0) [ip0] []
        "443" DEFAULT_HOST (req.wsPath.getD DEFAULT_WS_PATH) 443 hlen hg1 hparse hrange hmiss)
  rw [hout1] at hg2
  simp only at hg2
  have hhit : cacheLookup
      (mapSet st.requestCache (cacheKeyOf (isDomain ip0) ip0 443 DEFAULT_HOST)
        { data := buildResponse ip0 (isDomain ip0) [ip0] 443
            ((detectAll det 443 DEFAULT_HOST (req.wsPath.getD DEFAULT_WS_PATH) [ip0]).map cleanResult)
            DEFAULT_HOST now1
          timestamp := now1 })
      (cacheKeyOf (isDomain ip0) ip0 443 DEFAULT_HOST) now2 =
      some (buildResponse ip0 (isDomain ip0) [ip0] 443
        ((detectAll det 443 DEFAULT_HOST (req.wsPath.getD DEFAULT_WS_PATH) [ip0]).map cleanResult)
        DEFAULT_HOST now1) := by
    simp [cacheLookup, mapGet_mapSet_self, httl]
  have hout2 := (handleApi_ip_literal dns det
      { requestCache := mapSet st.requestCache (cacheKeyOf (isDomain ip0) ip0 443 DEFAULT_HOST)
          { data := buildResponse ip0 (isDomain ip0) [ip0] 443
              ((detectAll det 443 DEFAULT_HOST (req.wsPath.getD DEFAULT_WS_PATH) [ip0]).map cleanResult)
              DEFAULT_HOST now1
            timestamp := now1 }
        rateLimitMap := (checkRateLimit st.rateLimitMap req.clientIp now1).2 }
      now2 { req with wsPath := some w2 } ip0 hip hne hsplit hlit hprt hhst).trans
    (handleTargets_cache_hit det _ now2 req.clientIp ip0 (isDomain ip0) [ip0] []
      "443" DEFAULT_HOST w2 443 _ hlen hg2 hparse hrange hhit)
  refine ⟨by rw [hout1], ?_, ?_⟩
  · simp only [hout1]
    rw [hout2]
  · simp only [hout1]
    rw [hout2]

/-- Witness for C10: first request probes `/ws1`, the second request asks for
`/ws2` ten seconds later and is served the `/ws1` response from the cache. -/
theorem claimC10_witness :
    (handleApi dnsEnvNone detEnvStub stEmpty 0 req9ws).response =
      ApiResponse.ok (buildResponse "9.9.9.9" (isDomain "9.9.9.9") ["9.9.9.9"] 443
        ((detectAll detEnvStub 443 DEFAULT_HOST (req9ws.wsPath.getD DEFAULT_WS_PATH)
          ["9.9.9.9"]).map cleanResult) DEFAULT_HOST 0) ∧
    (handleApi dnsEnvNone detEnvStub (handleApi dnsEnvNone detEnvStub stEmpty 0 req9ws).state
        10000 { req9ws with wsPath := some "/ws2" }).response =
      (handleApi dnsEnvNone detEnvStub stEmpty 0 req9ws).response ∧
    (handleApi dnsEnvNone detEnvStub (handleApi dnsEnvNone detEnvStub stEmpty 0 req9ws).state
        10000 { req9ws with wsPath := some "/ws2" }).detectedIPs = [] :=
  claimC10_cache_key_ignores_wsPath dnsEnvNone detEnvStub stEmpty req9ws "9.9.9.9" "/ws2"
    0 10000 rfl (by decide) (by decide) (by decide) rfl rfl (by decide) (by decide)
    (by decide) (by decide)

end CfProxy
